import Mathlib

/-!
Verification of the FFXV-Unlocker process patch engine.

Shallow embedding of `MemoryEditor.cpp` / `PatternScanner.cpp` (and the
`selectable` guard of `MainWindow::onIndividualUnlockToggled`).

Modelling conventions:
* Target-process memory is a function `Nat → Nat` (byte value at an address);
  page protection is likewise a per-address function `Nat → Nat`.
* The operating system's fallible calls (`ReadProcessMemory`,
  `WriteProcessMemory`, `VirtualProtectEx`, `OpenProcess`,
  module enumeration, process liveness) are modelled by a deterministic
  environment `Env`: each call's success is a function of its address/size
  arguments, so repeating a call repeats its outcome.
* A failed `WriteProcessMemory` (or one writing fewer bytes than requested,
  which the code treats as failure) leaves memory unchanged.
* `HANDLE m_processHandle` is modelled as the Boolean `processHandle`
  (null / non-null); `GetExitCodeProcess` reporting `STILL_ACTIVE` is the
  environment flag `alive`.
* `emit errorOccurred(msg)` is modelled by prepending `msg` to an `errors`
  log in the editor state; `m_lastError` is the `lastError` field.
* `m_patternCache` (a `std::map<std::string, uintptr_t>`) is modelled as a
  function `String → Option Nat`.
* A ghost counter `scanCount` counts invocations of the module scan
  (`PatternScanner::findPatternInModule`); it is write-only instrumentation.
* `Patches::Patch.offset` is modelled as `Nat`: the configuration catalogue
  only uses non-negative offsets added to an unsigned address.
-/

/-- `Patches::Patch`: an AOB code patch (name, signature, offset from the
match, original bytes, replacement bytes, enabled flag). -/
structure Patches.Patch where
  name : String
  pattern : List Nat
  offset : Nat
  original : List Nat
  patched : List Nat
  enabled : Bool

/-- `Patches::UnlockItem`: a single-byte flag at a known absolute address. -/
structure Patches.UnlockItem where
  name : String
  address : Nat
  enabled : Bool
  selectable : Bool

/-- `Patches::UnlockBundle`: a named group of flag addresses toggled as one
logical unit. -/
structure Patches.UnlockBundle where
  name : String
  addresses : List Nat
  enabled : Bool

/-- Deterministic model of the operating-system calls the engine makes. -/
structure Env where
  /-- `ReadProcessMemory` succeeds (fully) for this address/size. -/
  readOk : Nat → Nat → Bool
  /-- `WriteProcessMemory` succeeds writing all bytes for this address/size. -/
  writeOk : Nat → Nat → Bool
  /-- `VirtualProtectEx` succeeds for this address/size. -/
  protOk : Nat → Nat → Bool
  /-- Module enumeration finds `ffxv_s.exe`. -/
  modFound : Bool
  /-- Base address of `ffxv_s.exe`. -/
  modBase : Nat
  /-- `SizeOfImage` of `ffxv_s.exe`. -/
  modSize : Nat
  /-- `findProcessByName` result; `0` means no process matched. -/
  pid : Nat
  /-- `OpenProcess` succeeds. -/
  openOk : Bool
  /-- `GetExitCodeProcess` reports `STILL_ACTIVE`. -/
  alive : Bool

/-- Target-process memory and page-protection state. -/
structure MState where
  mem : Nat → Nat
  prot : Nat → Nat

/-- The mutable fields of `MemoryEditor` plus the emitted-error log and the
ghost scan counter. -/
structure Editor where
  processHandle : Bool
  processId : Nat
  processName : String
  lastError : String
  patternCache : String → Option Nat
  errors : List String
  scanCount : Nat

/-- Overwrite `f` with value `v` on the address range `[addr, addr+size)`. -/
def setRange (f : Nat → Nat) (addr size v : Nat) : Nat → Nat :=
  fun x => if addr ≤ x ∧ x < addr + size then v else f x

/-- Overwrite memory `f` with the bytes of `data` starting at `addr`. -/
def writeRange (f : Nat → Nat) (addr : Nat) (data : List Nat) : Nat → Nat :=
  fun x => if addr ≤ x ∧ x < addr + data.length then data.getD (x - addr) 0 else f x

/-- `PAGE_EXECUTE_READWRITE`. -/
def PAGE_EXECUTE_READWRITE : Nat := 64

-- ===========================================================================
-- PatternScanner
-- ===========================================================================

/-- 64 KiB chunk size used by `PatternScanner::findPattern`. -/
def PatternScanner.CHUNK_SIZE : Nat := 65536

/-- The buffer obtained by reading `n` bytes of target memory at `addr`
(successful full `ReadProcessMemory`). -/
def PatternScanner.readMem (mem : Nat → Nat) (addr n : Nat) : List Nat :=
  (List.range n).map fun i => mem (addr + i)

/-- `PatternScanner::matchPattern`: bounds check, then byte-for-byte exact
comparison of `pat` against `data` at `off`. -/
def PatternScanner.matchPattern (data pat : List Nat) (off : Nat) : Bool :=
  decide (off + pat.length ≤ data.length) &&
    (List.range pat.length).all fun i => data.getD (off + i) 0 == pat.getD i 0

/-- The inner loop of `PatternScanner::findPattern`: first index `i` with
`i + pat.length ≤ data.length` at which `pat` matches. -/
def PatternScanner.scanBuffer (data pat : List Nat) : Option Nat :=
  (List.range (data.length + 1 - pat.length)).find? fun i =>
    PatternScanner.matchPattern data pat i

/-- The chunk loop of `PatternScanner::findPattern`, with the iteration count
(`⌈searchSize / CHUNK_SIZE⌉`) made explicit as structural fuel. Each round
reads `min (CHUNK_SIZE + pat.length) (searchSize - offset)` bytes (a chunk
plus a signature-length overlap), skips the chunk if the read fails, and
otherwise scans the buffer. -/
def PatternScanner.scanChunksGo (readOk : Nat → Nat → Bool) (mem : Nat → Nat)
    (startAddress searchSize : Nat) (pat : List Nat) : Nat → Nat → Option Nat
  | 0, _ => none
  | n + 1, offset =>
    let bytesToRead := min (PatternScanner.CHUNK_SIZE + pat.length) (searchSize - offset)
    if readOk (startAddress + offset) bytesToRead then
      match PatternScanner.scanBuffer
          (PatternScanner.readMem mem (startAddress + offset) bytesToRead) pat with
      | some i => some (startAddress + offset + i)
      | none =>
        PatternScanner.scanChunksGo readOk mem startAddress searchSize pat n
          (offset + PatternScanner.CHUNK_SIZE)
    else
      PatternScanner.scanChunksGo readOk mem startAddress searchSize pat n
        (offset + PatternScanner.CHUNK_SIZE)

/-- `PatternScanner::findPattern`: chunked linear scan of
`[startAddress, startAddress + searchSize)` for `pat`; `none` for an empty
pattern (the null-handle guard lives in the attachment model). The `for`
loop `offset = 0; offset < searchSize; offset += CHUNK_SIZE` performs exactly
`⌈searchSize / CHUNK_SIZE⌉` iterations. -/
def PatternScanner.findPattern (readOk : Nat → Nat → Bool) (mem : Nat → Nat)
    (startAddress searchSize : Nat) (pat : List Nat) : Option Nat :=
  if pat.isEmpty then none
  else
    PatternScanner.scanChunksGo readOk mem startAddress searchSize pat
      ((searchSize + PatternScanner.CHUNK_SIZE - 1) / PatternScanner.CHUNK_SIZE) 0

/-- `PatternScanner::findPatternInModule`: resolve `ffxv_s.exe`'s base and
size, then scan it. -/
def PatternScanner.findPatternInModule (env : Env) (mem : Nat → Nat)
    (pat : List Nat) : Option Nat :=
  if env.modFound then
    PatternScanner.findPattern env.readOk mem env.modBase env.modSize pat
  else none

/-- `pat` occurs in memory at address `a` (exact byte match). -/
def occursAt (mem : Nat → Nat) (a : Nat) (pat : List Nat) : Prop :=
  ∀ i, i < pat.length → mem (a + i) = pat.getD i 0

instance occursAt.instDecidable (mem : Nat → Nat) (a : Nat) (pat : List Nat) :
    Decidable (occursAt mem a pat) := by
  unfold occursAt
  exact inferInstance

-- ===========================================================================
-- MemoryEditor: process attachment
-- ===========================================================================

/-- `MemoryEditor::isAttached`: handle non-null and the target still running
(`GetExitCodeProcess` reports `STILL_ACTIVE`). -/
def MemoryEditor.isAttached (env : Env) (e : Editor) : Bool :=
  e.processHandle && env.alive

/-- `MemoryEditor::detach`: if a handle is held, close it and clear the id,
name and pattern cache; otherwise do nothing. -/
def MemoryEditor.detach (e : Editor) : Editor :=
  if e.processHandle then
    { e with processHandle := false, processId := 0, processName := "",
             patternCache := fun _ => none }
  else e

/-- `MemoryEditor::attachToProcess`: detach any existing session first, then
find the process by name (`env.pid = 0` means not found, no error event is
emitted for that case) and open it (`env.openOk`); on success clear the
pattern cache and record the target. The numeric `GetLastError` suffix of the
open-failure message is elided. -/
def MemoryEditor.attachToProcess (env : Env) (e : Editor) (name : String) :
    Bool × Editor :=
  let e1 := if e.processHandle then MemoryEditor.detach e else e
  if env.pid = 0 then
    (false, { e1 with lastError := "Process not found: " ++ name })
  else if env.openOk then
    (true, { e1 with processHandle := true, processId := env.pid,
                     processName := name, patternCache := fun _ => none })
  else
    let msg := "Failed to open process. Run as administrator?"
    (false, { e1 with lastError := msg, errors := msg :: e1.errors })

-- ===========================================================================
-- MemoryEditor: low-level memory operations
-- ===========================================================================

/-- `MemoryEditor::setMemoryProtection` (`VirtualProtectEx`): on success the
range takes the new protection and the previous protection of the first
address is reported; on failure the state is untouched (the reported old
protection is then junk, and the code never reads it). -/
def MemoryEditor.setMemoryProtection (env : Env) (s : MState)
    (addr size newProt : Nat) : Bool × MState × Nat :=
  if env.protOk addr size then
    (true, { s with prot := setRange s.prot addr size newProt }, s.prot addr)
  else (false, s, 0)

/-- `MemoryEditor::writeMemory` (`WriteProcessMemory` with a full-write
check): on success the bytes land in memory, otherwise memory is unchanged. -/
def MemoryEditor.writeMemory (env : Env) (s : MState) (addr : Nat)
    (data : List Nat) : Bool × MState :=
  if env.writeOk addr data.length then
    (true, { s with mem := writeRange s.mem addr data })
  else (false, s)

/-- `MemoryEditor::writeProtectedMemory`: relax the region to
`PAGE_EXECUTE_READWRITE`, write, and always restore the prior protection,
returning the write's own success. (The C++ also stores
"Failed to change memory protection" into `m_lastError` on the protect
failure; both callers overwrite `m_lastError` before it can be read, so that
dead store is elided.) -/
def MemoryEditor.writeProtectedMemory (env : Env) (s : MState) (addr : Nat)
    (data : List Nat) : Bool × MState :=
  let r1 := MemoryEditor.setMemoryProtection env s addr data.length PAGE_EXECUTE_READWRITE
  if r1.1 then
    let r2 := MemoryEditor.writeMemory env r1.2.1 addr data
    let r3 := MemoryEditor.setMemoryProtection env r2.2 addr data.length r1.2.2
    (r2.1, r3.2.1)
  else (false, s)

/-- `MemoryEditor::writeByte`: attached check, protect one byte, write it
(inlined `WriteProcessMemory`, success iff exactly one byte written), always
restore the prior protection. -/
def MemoryEditor.writeByte (env : Env) (e : Editor) (s : MState)
    (addr v : Nat) : Bool × MState :=
  if MemoryEditor.isAttached env e then
    let r1 := MemoryEditor.setMemoryProtection env s addr 1 PAGE_EXECUTE_READWRITE
    if r1.1 then
      let success := env.writeOk addr 1
      let s2 := if success then { r1.2.1 with mem := writeRange r1.2.1.mem addr [v] }
                else r1.2.1
      let r3 := MemoryEditor.setMemoryProtection env s2 addr 1 r1.2.2
      (success, r3.2.1)
    else (false, s)
  else (false, s)

-- ===========================================================================
-- MemoryEditor: pattern resolution
-- ===========================================================================

/-- `MemoryEditor::findPatternAddress`: cache hit short-circuits; otherwise
scan the main module (counted by the ghost `scanCount`), caching a successful
result; `0` encodes failure. -/
def MemoryEditor.findPatternAddress (env : Env) (mem : Nat → Nat) (e : Editor)
    (patch : Patches.Patch) : Nat × Editor :=
  match e.patternCache patch.name with
  | some a => (a, e)
  | none =>
    let e1 : Editor := { e with scanCount := e.scanCount + 1 }
    match PatternScanner.findPatternInModule env mem patch.pattern with
    | some a =>
      (a, { e1 with patternCache := fun n => if n = patch.name then some a
                                             else e1.patternCache n })
    | none => (0, e1)

-- ===========================================================================
-- MemoryEditor: AOB patches
-- ===========================================================================

/-- `MemoryEditor::applyPatch`: attached check, resolve the signature, add
the offset, write `patch.patched` through the protected writer, and only then
set `enabled := true`. Every failure records and emits an error and leaves
the patch untouched. -/
def MemoryEditor.applyPatch (env : Env) (e : Editor) (s : MState)
    (patch : Patches.Patch) : Bool × Editor × MState × Patches.Patch :=
  if MemoryEditor.isAttached env e then
    let r := MemoryEditor.findPatternAddress env s.mem e patch
    if r.1 = 0 then
      let msg := "Pattern not found: " ++ patch.name
      (false, { r.2 with lastError := msg, errors := msg :: r.2.errors }, s, patch)
    else
      let address := r.1 + patch.offset
      let w := MemoryEditor.writeProtectedMemory env s address patch.patched
      if w.1 then
        (true, r.2, w.2, { patch with enabled := true })
      else
        let msg := "Failed to write patch: " ++ patch.name
        (false, { r.2 with lastError := msg, errors := msg :: r.2.errors }, w.2, patch)
  else
    let msg := "Not attached to process"
    (false, { e with lastError := msg, errors := msg :: e.errors }, s, patch)

/-- `MemoryEditor::removePatch`: like `applyPatch`, but the address is looked
up cache-first (falling back to `findPatternAddress`, which itself rescans on
a cache miss), `patch.original` is written back, and success clears
`enabled`. -/
def MemoryEditor.removePatch (env : Env) (e : Editor) (s : MState)
    (patch : Patches.Patch) : Bool × Editor × MState × Patches.Patch :=
  if MemoryEditor.isAttached env e then
    let r := match e.patternCache patch.name with
      | some a => (a, e)
      | none => MemoryEditor.findPatternAddress env s.mem e patch
    if r.1 = 0 then
      let msg := "Cannot find patch location: " ++ patch.name
      (false, { r.2 with lastError := msg, errors := msg :: r.2.errors }, s, patch)
    else
      let address := r.1 + patch.offset
      let w := MemoryEditor.writeProtectedMemory env s address patch.original
      if w.1 then
        (true, r.2, w.2, { patch with enabled := false })
      else
        let msg := "Failed to restore original bytes: " ++ patch.name
        (false, { r.2 with lastError := msg, errors := msg :: r.2.errors }, w.2, patch)
  else
    let msg := "Not attached to process"
    (false, { e with lastError := msg, errors := msg :: e.errors }, s, patch)

/-- `MemoryEditor::applyAllPatches`: iterate the given order, skip items
already enabled, `&&` the per-item results, never stop early. -/
def MemoryEditor.applyAllPatches (env : Env) :
    Editor → MState → List Patches.Patch → Bool × Editor × MState × List Patches.Patch
  | e, s, [] => (true, e, s, [])
  | e, s, p :: ps =>
    if p.enabled then
      let r := MemoryEditor.applyAllPatches env e s ps
      (r.1, r.2.1, r.2.2.1, p :: r.2.2.2)
    else
      let r1 := MemoryEditor.applyPatch env e s p
      let r := MemoryEditor.applyAllPatches env r1.2.1 r1.2.2.1 ps
      (r1.1 && r.1, r.2.1, r.2.2.1, r1.2.2.2 :: r.2.2.2)

/-- `MemoryEditor::removeAllPatches`: iterate the given order, skip items
already disabled, `&&` the per-item results, never stop early. -/
def MemoryEditor.removeAllPatches (env : Env) :
    Editor → MState → List Patches.Patch → Bool × Editor × MState × List Patches.Patch
  | e, s, [] => (true, e, s, [])
  | e, s, p :: ps =>
    if p.enabled then
      let r1 := MemoryEditor.removePatch env e s p
      let r := MemoryEditor.removeAllPatches env r1.2.1 r1.2.2.1 ps
      (r1.1 && r.1, r.2.1, r.2.2.1, r1.2.2.2 :: r.2.2.2)
    else
      let r := MemoryEditor.removeAllPatches env e s ps
      (r.1, r.2.1, r.2.2.1, p :: r.2.2.2)

-- ===========================================================================
-- MemoryEditor: unlock items
-- ===========================================================================

/-- `MemoryEditor::enableUnlock`: attached check, write byte `1` to the
item's address, and only on success set `enabled := true`. -/
def MemoryEditor.enableUnlock (env : Env) (e : Editor) (s : MState)
    (item : Patches.UnlockItem) : Bool × Editor × MState × Patches.UnlockItem :=
  if MemoryEditor.isAttached env e then
    let w := MemoryEditor.writeByte env e s item.address 1
    if w.1 then (true, e, w.2, { item with enabled := true })
    else
      let msg := "Failed to enable unlock: " ++ item.name
      (false, { e with lastError := msg, errors := msg :: e.errors }, w.2, item)
  else
    let msg := "Not attached to process"
    (false, { e with lastError := msg, errors := msg :: e.errors }, s, item)

/-- `MemoryEditor::disableUnlock`: attached check, write byte `0` to the
item's address, and only on success set `enabled := false`. -/
def MemoryEditor.disableUnlock (env : Env) (e : Editor) (s : MState)
    (item : Patches.UnlockItem) : Bool × Editor × MState × Patches.UnlockItem :=
  if MemoryEditor.isAttached env e then
    let w := MemoryEditor.writeByte env e s item.address 0
    if w.1 then (true, e, w.2, { item with enabled := false })
    else
      let msg := "Failed to disable unlock: " ++ item.name
      (false, { e with lastError := msg, errors := msg :: e.errors }, w.2, item)
  else
    let msg := "Not attached to process"
    (false, { e with lastError := msg, errors := msg :: e.errors }, s, item)

/-- `MemoryEditor::enableAllUnlocks`: iterate in order, skip items already
enabled, `&&` the per-item results, never stop early. -/
def MemoryEditor.enableAllUnlocks (env : Env) :
    Editor → MState → List Patches.UnlockItem →
      Bool × Editor × MState × List Patches.UnlockItem
  | e, s, [] => (true, e, s, [])
  | e, s, x :: xs =>
    if x.enabled then
      let r := MemoryEditor.enableAllUnlocks env e s xs
      (r.1, r.2.1, r.2.2.1, x :: r.2.2.2)
    else
      let r1 := MemoryEditor.enableUnlock env e s x
      let r := MemoryEditor.enableAllUnlocks env r1.2.1 r1.2.2.1 xs
      (r1.1 && r.1, r.2.1, r.2.2.1, r1.2.2.2 :: r.2.2.2)

/-- `MemoryEditor::disableAllUnlocks`: iterate in order, skip items already
disabled, `&&` the per-item results, never stop early. -/
def MemoryEditor.disableAllUnlocks (env : Env) :
    Editor → MState → List Patches.UnlockItem →
      Bool × Editor × MState × List Patches.UnlockItem
  | e, s, [] => (true, e, s, [])
  | e, s, x :: xs =>
    if x.enabled then
      let r1 := MemoryEditor.disableUnlock env e s x
      let r := MemoryEditor.disableAllUnlocks env r1.2.1 r1.2.2.1 xs
      (r1.1 && r.1, r.2.1, r.2.2.1, r1.2.2.2 :: r.2.2.2)
    else
      let r := MemoryEditor.disableAllUnlocks env e s xs
      (r.1, r.2.1, r.2.2.1, x :: r.2.2.2)

-- ===========================================================================
-- MemoryEditor: bundles
-- ===========================================================================

/-- The address loop shared by `enableBundle` (value `1`) and `disableBundle`
(value `0`): write the byte to each address in order, `&&`-ing the results. -/
def MemoryEditor.writeAllBytes (env : Env) (e : Editor) (v : Nat) :
    MState → List Nat → Bool × MState
  | s, [] => (true, s)
  | s, addr :: rest =>
    let w := MemoryEditor.writeByte env e s addr v
    let r := MemoryEditor.writeAllBytes env e v w.2 rest
    (w.1 && r.1, r.2)

/-- `MemoryEditor::enableBundle`: attached check, write `1` to every address
in the bundle, and set `enabled := true` only if every write succeeded;
otherwise report a partial failure and leave the bundle untouched (no
rollback of the writes that did succeed). -/
def MemoryEditor.enableBundle (env : Env) (e : Editor) (s : MState)
    (b : Patches.UnlockBundle) : Bool × Editor × MState × Patches.UnlockBundle :=
  if MemoryEditor.isAttached env e then
    let w := MemoryEditor.writeAllBytes env e 1 s b.addresses
    if w.1 then (true, e, w.2, { b with enabled := true })
    else
      let msg := "Failed to enable bundle (partial): " ++ b.name
      (false, { e with lastError := msg, errors := msg :: e.errors }, w.2, b)
  else
    let msg := "Not attached to process"
    (false, { e with lastError := msg, errors := msg :: e.errors }, s, b)

/-- `MemoryEditor::disableBundle`: symmetric to `enableBundle` with value
`0` and `enabled := false` on full success. -/
def MemoryEditor.disableBundle (env : Env) (e : Editor) (s : MState)
    (b : Patches.UnlockBundle) : Bool × Editor × MState × Patches.UnlockBundle :=
  if MemoryEditor.isAttached env e then
    let w := MemoryEditor.writeAllBytes env e 0 s b.addresses
    if w.1 then (true, e, w.2, { b with enabled := false })
    else
      let msg := "Failed to disable bundle (partial): " ++ b.name
      (false, { e with lastError := msg, errors := msg :: e.errors }, w.2, b)
  else
    let msg := "Not attached to process"
    (false, { e with lastError := msg, errors := msg :: e.errors }, s, b)

/-- `MemoryEditor::enableAllBundles`: iterate in order, skip bundles already
enabled, `&&` the per-item results, never stop early. -/
def MemoryEditor.enableAllBundles (env : Env) :
    Editor → MState → List Patches.UnlockBundle →
      Bool × Editor × MState × List Patches.UnlockBundle
  | e, s, [] => (true, e, s, [])
  | e, s, b :: bs =>
    if b.enabled then
      let r := MemoryEditor.enableAllBundles env e s bs
      (r.1, r.2.1, r.2.2.1, b :: r.2.2.2)
    else
      let r1 := MemoryEditor.enableBundle env e s b
      let r := MemoryEditor.enableAllBundles env r1.2.1 r1.2.2.1 bs
      (r1.1 && r.1, r.2.1, r.2.2.1, r1.2.2.2 :: r.2.2.2)

/-- `MemoryEditor::disableAllBundles`: iterate in order, skip bundles already
disabled, `&&` the per-item results, never stop early. -/
def MemoryEditor.disableAllBundles (env : Env) :
    Editor → MState → List Patches.UnlockBundle →
      Bool × Editor × MState × List Patches.UnlockBundle
  | e, s, [] => (true, e, s, [])
  | e, s, b :: bs =>
    if b.enabled then
      let r1 := MemoryEditor.disableBundle env e s b
      let r := MemoryEditor.disableAllBundles env r1.2.1 r1.2.2.1 bs
      (r1.1 && r.1, r.2.1, r.2.2.1, r1.2.2.2 :: r.2.2.2)
    else
      let r := MemoryEditor.disableAllBundles env e s bs
      (r.1, r.2.1, r.2.2.1, b :: r.2.2.2)

-- ===========================================================================
-- MainWindow: the individual-unlock toggle handler (memory-relevant slice)
-- ===========================================================================

/-- `MainWindow::onIndividualUnlockToggled`: ignore the request when not
attached; for `selectable = false` items revert the checkbox and return
without any memory write; otherwise dispatch to `enableUnlock` /
`disableUnlock`. (The handler's checkbox and category bookkeeping touches
only widget state and is elided.) -/
def MainWindow.onIndividualUnlockToggled (env : Env) (e : Editor) (s : MState)
    (item : Patches.UnlockItem) (checked : Bool) :
    Editor × MState × Patches.UnlockItem :=
  if MemoryEditor.isAttached env e then
    if item.selectable then
      if checked then
        let r := MemoryEditor.enableUnlock env e s item
        (r.2.1, r.2.2.1, r.2.2.2)
      else
        let r := MemoryEditor.disableUnlock env e s item
        (r.2.1, r.2.2.1, r.2.2.2)
    else (e, s, item)
  else (e, s, item)

-- ===========================================================================
-- Helper lemmas: ranges, protected writes, byte writes
-- ===========================================================================

theorem setRange_restore (f : Nat → Nat) (addr n v : Nat)
    (hu : ∀ i, i < n → f (addr + i) = f addr) :
    ∀ x, setRange (setRange f addr n v) addr n (f addr) x = f x := by
  intro x
  unfold setRange
  by_cases h : addr ≤ x ∧ x < addr + n
  · rw [if_pos h]
    have hx : addr + (x - addr) = x := by omega
    rw [← hx]
    exact (hu (x - addr) (by omega)).symm
  · rw [if_neg h, if_neg h]

theorem writeRange_getD (f : Nat → Nat) (addr : Nat) (data : List Nat) (i : Nat)
    (h : i < data.length) : writeRange f addr data (addr + i) = data.getD i 0 := by
  unfold writeRange
  rw [if_pos ⟨by omega, by omega⟩]
  congr 1
  omega

theorem writeRange_single (f : Nat → Nat) (addr v x : Nat) :
    writeRange f addr [v] x = if x = addr then v else f x := by
  unfold writeRange
  by_cases h : x = addr
  · subst h
    rw [if_pos ⟨Nat.le_refl x, by simp⟩, if_pos rfl, Nat.sub_self]
    rfl
  · rw [if_neg (by simp only [List.length_cons, List.length_nil]; omega), if_neg h]

theorem wpm_fst (env : Env) (s : MState) (addr : Nat) (data : List Nat) :
    (MemoryEditor.writeProtectedMemory env s addr data).1 =
      (env.protOk addr data.length && env.writeOk addr data.length) := by
  unfold MemoryEditor.writeProtectedMemory MemoryEditor.setMemoryProtection
    MemoryEditor.writeMemory
  by_cases h1 : env.protOk addr data.length = true
  · by_cases h2 : env.writeOk addr data.length = true <;> simp [h1, h2]
  · simp [h1]

theorem wpm_mem (env : Env) (s : MState) (addr : Nat) (data : List Nat) :
    (MemoryEditor.writeProtectedMemory env s addr data).2.mem =
      if env.protOk addr data.length = true ∧ env.writeOk addr data.length = true
      then writeRange s.mem addr data else s.mem := by
  unfold MemoryEditor.writeProtectedMemory MemoryEditor.setMemoryProtection
    MemoryEditor.writeMemory
  by_cases h1 : env.protOk addr data.length = true
  · by_cases h2 : env.writeOk addr data.length = true <;> simp [h1, h2]
  · simp [h1]

theorem wpm_prot (env : Env) (s : MState) (addr : Nat) (data : List Nat)
    (hu : ∀ i, i < data.length → s.prot (addr + i) = s.prot addr) :
    ∀ x, (MemoryEditor.writeProtectedMemory env s addr data).2.prot x = s.prot x := by
  intro x
  unfold MemoryEditor.writeProtectedMemory MemoryEditor.setMemoryProtection
    MemoryEditor.writeMemory
  by_cases h1 : env.protOk addr data.length = true
  · by_cases h2 : env.writeOk addr data.length = true
    · simp [h1, h2]
      exact setRange_restore s.prot addr data.length PAGE_EXECUTE_READWRITE hu x
    · simp [h1, h2]
      exact setRange_restore s.prot addr data.length PAGE_EXECUTE_READWRITE hu x
  · simp [h1]

theorem writeByte_fst (env : Env) (e : Editor) (s : MState) (addr v : Nat) :
    (MemoryEditor.writeByte env e s addr v).1 =
      (MemoryEditor.isAttached env e && env.protOk addr 1 && env.writeOk addr 1) := by
  unfold MemoryEditor.writeByte MemoryEditor.setMemoryProtection
  by_cases ha : MemoryEditor.isAttached env e = true
  · by_cases h1 : env.protOk addr 1 = true
    · by_cases h2 : env.writeOk addr 1 = true <;> simp [ha, h1, h2]
    · simp [ha, h1]
  · simp [ha]

theorem writeByte_mem (env : Env) (e : Editor) (s : MState) (addr v : Nat) :
    (MemoryEditor.writeByte env e s addr v).2.mem =
      if MemoryEditor.isAttached env e = true ∧ env.protOk addr 1 = true ∧
          env.writeOk addr 1 = true
      then writeRange s.mem addr [v] else s.mem := by
  unfold MemoryEditor.writeByte MemoryEditor.setMemoryProtection
  by_cases ha : MemoryEditor.isAttached env e = true
  · by_cases h1 : env.protOk addr 1 = true
    · by_cases h2 : env.writeOk addr 1 = true <;> simp [ha, h1, h2]
    · simp [ha, h1]
  · simp [ha]

theorem writeByte_prot (env : Env) (e : Editor) (s : MState) (addr v : Nat) :
    ∀ x, (MemoryEditor.writeByte env e s addr v).2.prot x = s.prot x := by
  intro x
  have hu : ∀ i, i < 1 → s.prot (addr + i) = s.prot addr := by
    intro i hi
    interval_cases i
    rw [Nat.add_zero]
  unfold MemoryEditor.writeByte MemoryEditor.setMemoryProtection
  by_cases ha : MemoryEditor.isAttached env e = true
  · by_cases h1 : env.protOk addr 1 = true
    · by_cases h2 : env.writeOk addr 1 = true
      · simp [ha, h1, h2]
        exact setRange_restore s.prot addr 1 PAGE_EXECUTE_READWRITE hu x
      · simp [ha, h1, h2]
        exact setRange_restore s.prot addr 1 PAGE_EXECUTE_READWRITE hu x
    · simp [ha, h1]
  · simp [ha]

-- ===========================================================================
-- Helper lemmas: pattern resolution and patch operations
-- ===========================================================================

theorem fpa_cache_hit (env : Env) (m : Nat → Nat) (e : Editor) (p : Patches.Patch)
    (a : Nat) (h : e.patternCache p.name = some a) :
    MemoryEditor.findPatternAddress env m e p = (a, e) := by
  unfold MemoryEditor.findPatternAddress
  rw [h]

theorem fpa_cache_after (env : Env) (m : Nat → Nat) (e : Editor) (p : Patches.Patch)
    (h : (MemoryEditor.findPatternAddress env m e p).1 ≠ 0) :
    (MemoryEditor.findPatternAddress env m e p).2.patternCache p.name =
      some (MemoryEditor.findPatternAddress env m e p).1 := by
  unfold MemoryEditor.findPatternAddress at *
  cases hc : e.patternCache p.name with
  | some a => simp [hc]
  | none =>
    cases hs : PatternScanner.findPatternInModule env m p.pattern with
    | some a => simp [hc, hs]
    | none => rw [hc, hs] at h; simp at h

theorem fpa_handle (env : Env) (m : Nat → Nat) (e : Editor) (p : Patches.Patch) :
    (MemoryEditor.findPatternAddress env m e p).2.processHandle = e.processHandle := by
  unfold MemoryEditor.findPatternAddress
  cases hc : e.patternCache p.name with
  | some a => rfl
  | none =>
    cases hs : PatternScanner.findPatternInModule env m p.pattern with
    | some a => rfl
    | none => rfl

theorem fpa_errors (env : Env) (m : Nat → Nat) (e : Editor) (p : Patches.Patch) :
    (MemoryEditor.findPatternAddress env m e p).2.errors = e.errors := by
  unfold MemoryEditor.findPatternAddress
  cases hc : e.patternCache p.name with
  | some a => rfl
  | none =>
    cases hs : PatternScanner.findPatternInModule env m p.pattern with
    | some a => rfl
    | none => rfl

theorem fpa_scanCount_hit (env : Env) (m : Nat → Nat) (e : Editor) (p : Patches.Patch)
    (a : Nat) (h : e.patternCache p.name = some a) :
    (MemoryEditor.findPatternAddress env m e p).2.scanCount = e.scanCount := by
  rw [fpa_cache_hit env m e p a h]

theorem fpa_scanCount_miss (env : Env) (m : Nat → Nat) (e : Editor) (p : Patches.Patch)
    (h : e.patternCache p.name = none) :
    (MemoryEditor.findPatternAddress env m e p).2.scanCount = e.scanCount + 1 := by
  unfold MemoryEditor.findPatternAddress
  rw [h]
  cases hs : PatternScanner.findPatternInModule env m p.pattern with
  | some a => rfl
  | none => rfl

theorem applyPatch_ok (env : Env) (e : Editor) (s : MState) (p : Patches.Patch)
    (h : (MemoryEditor.applyPatch env e s p).1 = true) :
    MemoryEditor.isAttached env e = true ∧
    (MemoryEditor.findPatternAddress env s.mem e p).1 ≠ 0 ∧
    (MemoryEditor.writeProtectedMemory env s
      ((MemoryEditor.findPatternAddress env s.mem e p).1 + p.offset) p.patched).1 = true ∧
    MemoryEditor.applyPatch env e s p =
      (true, (MemoryEditor.findPatternAddress env s.mem e p).2,
        (MemoryEditor.writeProtectedMemory env s
          ((MemoryEditor.findPatternAddress env s.mem e p).1 + p.offset) p.patched).2,
        { p with enabled := true }) := by
  unfold MemoryEditor.applyPatch at *
  by_cases ha : MemoryEditor.isAttached env e = true
  · by_cases h0 : (MemoryEditor.findPatternAddress env s.mem e p).1 = 0
    · simp [ha, h0] at h
    · by_cases hw : (MemoryEditor.writeProtectedMemory env s
          ((MemoryEditor.findPatternAddress env s.mem e p).1 + p.offset) p.patched).1 = true
      · simp [ha, h0, hw]
      · simp [ha, h0, hw] at h
  · simp [ha] at h

theorem applyPatch_fail (env : Env) (e : Editor) (s : MState) (p : Patches.Patch)
    (h : (MemoryEditor.applyPatch env e s p).1 = false) :
    (MemoryEditor.applyPatch env e s p).2.2.2 = p ∧
    (MemoryEditor.applyPatch env e s p).2.1.errors.length = e.errors.length + 1 := by
  unfold MemoryEditor.applyPatch at *
  by_cases ha : MemoryEditor.isAttached env e = true
  · by_cases h0 : (MemoryEditor.findPatternAddress env s.mem e p).1 = 0
    · simp [ha, h0, fpa_errors]
    · by_cases hw : (MemoryEditor.writeProtectedMemory env s
          ((MemoryEditor.findPatternAddress env s.mem e p).1 + p.offset) p.patched).1 = true
      · simp [ha, h0, hw] at h
      · simp [ha, h0, hw, fpa_errors]
  · simp [ha]

theorem removePatch_fail (env : Env) (e : Editor) (s : MState) (p : Patches.Patch)
    (h : (MemoryEditor.removePatch env e s p).1 = false) :
    (MemoryEditor.removePatch env e s p).2.2.2 = p ∧
    (MemoryEditor.removePatch env e s p).2.1.errors.length = e.errors.length + 1 := by
  unfold MemoryEditor.removePatch at *
  by_cases ha : MemoryEditor.isAttached env e = true
  · cases hc : e.patternCache p.name with
    | some a =>
      by_cases h0 : a = 0
      · simp [ha, hc, h0]
      · by_cases hw : (MemoryEditor.writeProtectedMemory env s (a + p.offset) p.original).1 = true
        · simp [ha, hc, h0, hw] at h
        · simp [ha, hc, h0, hw]
    | none =>
      by_cases h0 : (MemoryEditor.findPatternAddress env s.mem e p).1 = 0
      · simp [ha, hc, h0, fpa_errors]
      · by_cases hw : (MemoryEditor.writeProtectedMemory env s
            ((MemoryEditor.findPatternAddress env s.mem e p).1 + p.offset) p.original).1 = true
        · simp [ha, hc, h0, hw] at h
        · simp [ha, hc, h0, hw, fpa_errors]
  · simp [ha]

theorem removePatch_cached_ok (env : Env) (e : Editor) (s : MState) (p : Patches.Patch)
    (a : Nat) (hc : e.patternCache p.name = some a)
    (ha : MemoryEditor.isAttached env e = true) (h0 : a ≠ 0)
    (h : (MemoryEditor.removePatch env e s p).1 = true) :
    (MemoryEditor.writeProtectedMemory env s (a + p.offset) p.original).1 = true ∧
    MemoryEditor.removePatch env e s p =
      (true, e, (MemoryEditor.writeProtectedMemory env s (a + p.offset) p.original).2,
        { p with enabled := false }) := by
  unfold MemoryEditor.removePatch at *
  by_cases hw : (MemoryEditor.writeProtectedMemory env s (a + p.offset) p.original).1 = true
  · simp [ha, hc, h0, hw]
  · simp [ha, hc, h0, hw] at h

-- ===========================================================================
-- C1 / C2 / C3
-- ===========================================================================

/-- C1: for a patch whose original and patched payloads have equal length and
whose signature resolves, a successful `applyPatch` followed by a successful
`removePatch` leaves the bytes at the resolved site (resolved address plus
offset) exactly equal to `original`, and the patch disabled; `removePatch`
reuses the address `applyPatch` resolved because it consults the
name-to-address cache first. -/
theorem c1_round_trip (env : Env) (e : Editor) (s : MState) (p : Patches.Patch)
    (_hlen : p.original.length = p.patched.length)
    (h1 : (MemoryEditor.applyPatch env e s p).1 = true)
    (h2 : (MemoryEditor.removePatch env (MemoryEditor.applyPatch env e s p).2.1
            (MemoryEditor.applyPatch env e s p).2.2.1
            (MemoryEditor.applyPatch env e s p).2.2.2).1 = true) :
    (∀ i, i < p.original.length →
      (MemoryEditor.removePatch env (MemoryEditor.applyPatch env e s p).2.1
          (MemoryEditor.applyPatch env e s p).2.2.1
          (MemoryEditor.applyPatch env e s p).2.2.2).2.2.1.mem
        ((MemoryEditor.findPatternAddress env s.mem e p).1 + p.offset + i)
        = p.original.getD i 0) ∧
    (MemoryEditor.removePatch env (MemoryEditor.applyPatch env e s p).2.1
        (MemoryEditor.applyPatch env e s p).2.2.1
        (MemoryEditor.applyPatch env e s p).2.2.2).2.2.2.enabled = false := by
  obtain ⟨ha, h0, hw, heq⟩ := applyPatch_ok env e s p h1
  have hA : (MemoryEditor.applyPatch env e s p).2.1 =
      (MemoryEditor.findPatternAddress env s.mem e p).2 := by rw [heq]
  have hB : (MemoryEditor.applyPatch env e s p).2.2.1 =
      (MemoryEditor.writeProtectedMemory env s
        ((MemoryEditor.findPatternAddress env s.mem e p).1 + p.offset) p.patched).2 := by
    rw [heq]
  have hC : (MemoryEditor.applyPatch env e s p).2.2.2 =
      ({ p with enabled := true } : Patches.Patch) := by rw [heq]
  rw [hA, hB, hC] at h2 ⊢
  have hc : (MemoryEditor.findPatternAddress env s.mem e p).2.patternCache
      ({ p with enabled := true } : Patches.Patch).name =
      some (MemoryEditor.findPatternAddress env s.mem e p).1 :=
    fpa_cache_after env s.mem e p h0
  have ha1 : MemoryEditor.isAttached env
      (MemoryEditor.findPatternAddress env s.mem e p).2 = true := by
    unfold MemoryEditor.isAttached at ha ⊢
    rw [fpa_handle]
    exact ha
  obtain ⟨hw2, heq2⟩ := removePatch_cached_ok env _ _ _ _ hc ha1 h0 h2
  have hmm : (MemoryEditor.removePatch env
      (MemoryEditor.findPatternAddress env s.mem e p).2
      (MemoryEditor.writeProtectedMemory env s
        ((MemoryEditor.findPatternAddress env s.mem e p).1 + p.offset) p.patched).2
      ({ p with enabled := true } : Patches.Patch)).2.2.1 =
      (MemoryEditor.writeProtectedMemory env
        (MemoryEditor.writeProtectedMemory env s
          ((MemoryEditor.findPatternAddress env s.mem e p).1 + p.offset) p.patched).2
        ((MemoryEditor.findPatternAddress env s.mem e p).1 + p.offset) p.original).2 := by
    rw [heq2]
  have hee : (MemoryEditor.removePatch env
      (MemoryEditor.findPatternAddress env s.mem e p).2
      (MemoryEditor.writeProtectedMemory env s
        ((MemoryEditor.findPatternAddress env s.mem e p).1 + p.offset) p.patched).2
      ({ p with enabled := true } : Patches.Patch)).2.2.2.enabled = false := by
    rw [heq2]
  rw [hmm, hee]
  refine ⟨?_, rfl⟩
  intro i hi
  simp only [wpm_fst, Bool.and_eq_true] at hw2
  rw [wpm_mem, if_pos hw2]
  exact writeRange_getD _ _ p.original i hi

/-- C2: a failed `applyPatch` or `removePatch` leaves the patch (in
particular its `enabled` flag) unchanged and emits exactly one error; a
successful `applyPatch` set `enabled := true` only after the protected write
succeeded, and (when the site's prior protection was uniform) the prior page
protection was restored. -/
theorem c2_enabled_only_on_success (env : Env) (e : Editor) (s : MState)
    (p : Patches.Patch) :
    ((MemoryEditor.applyPatch env e s p).1 = false →
      (MemoryEditor.applyPatch env e s p).2.2.2 = p ∧
      (MemoryEditor.applyPatch env e s p).2.1.errors.length = e.errors.length + 1) ∧
    ((MemoryEditor.removePatch env e s p).1 = false →
      (MemoryEditor.removePatch env e s p).2.2.2 = p ∧
      (MemoryEditor.removePatch env e s p).2.1.errors.length = e.errors.length + 1) ∧
    ((MemoryEditor.applyPatch env e s p).1 = true →
      (MemoryEditor.applyPatch env e s p).2.2.2 = { p with enabled := true } ∧
      (MemoryEditor.writeProtectedMemory env s
        ((MemoryEditor.findPatternAddress env s.mem e p).1 + p.offset) p.patched).1 = true ∧
      ((∀ i, i < p.patched.length →
          s.prot ((MemoryEditor.findPatternAddress env s.mem e p).1 + p.offset + i) =
            s.prot ((MemoryEditor.findPatternAddress env s.mem e p).1 + p.offset)) →
        ∀ x, (MemoryEditor.applyPatch env e s p).2.2.1.prot x = s.prot x)) := by
  refine ⟨applyPatch_fail env e s p, removePatch_fail env e s p, ?_⟩
  intro h1
  obtain ⟨ha, h0, hw, heq⟩ := applyPatch_ok env e s p h1
  have hC : (MemoryEditor.applyPatch env e s p).2.2.2 =
      ({ p with enabled := true } : Patches.Patch) := by rw [heq]
  have hB : (MemoryEditor.applyPatch env e s p).2.2.1 =
      (MemoryEditor.writeProtectedMemory env s
        ((MemoryEditor.findPatternAddress env s.mem e p).1 + p.offset) p.patched).2 := by
    rw [heq]
  refine ⟨hC, hw, ?_⟩
  intro hu x
  rw [hB]
  exact wpm_prot env s _ p.patched hu x

/-- C3: both protected write primitives (the multi-byte one used by
`applyPatch`/`removePatch` and the single-byte one used by unlocks and
bundles) leave the page protection of every address exactly as it was before
the operation, whether or not the write succeeded; for the multi-byte write
the site's prior protection must be uniform, since the API reports a single
prior-protection value for the whole range. -/
theorem c3_protection_always_restored (env : Env) (e : Editor) (s : MState)
    (addr v : Nat) (data : List Nat)
    (hu : ∀ i, i < data.length → s.prot (addr + i) = s.prot addr) :
    (∀ x, (MemoryEditor.writeProtectedMemory env s addr data).2.prot x = s.prot x) ∧
    (∀ x, (MemoryEditor.writeByte env e s addr v).2.prot x = s.prot x) :=
  ⟨wpm_prot env s addr data hu, writeByte_prot env e s addr v⟩

-- ===========================================================================
-- Helper lemmas: scanner correctness
-- ===========================================================================

theorem find_range_eq_some {n i : Nat} {p : Nat → Bool} :
    (List.range n).find? p = some i ↔ i < n ∧ p i = true ∧ ∀ j, j < i → p j = false := by
  rw [List.find?_eq_some_iff_getElem]
  constructor
  · rintro ⟨hp, k, hk, hki, hmin⟩
    rw [List.getElem_range] at hki
    subst hki
    rw [List.length_range] at hk
    refine ⟨hk, hp, fun j hj => ?_⟩
    have hj2 := hmin j hj
    rw [List.getElem_range] at hj2
    simpa using hj2
  · rintro ⟨hn, hp, hmin⟩
    refine ⟨hp, i, by simpa using hn, by simp, fun j hj => ?_⟩
    rw [List.getElem_range]
    simpa using hmin j hj

theorem readMem_length (mem : Nat → Nat) (a n : Nat) :
    (PatternScanner.readMem mem a n).length = n := by
  unfold PatternScanner.readMem
  simp

theorem readMem_getD (mem : Nat → Nat) (a n i : Nat) (h : i < n) :
    (PatternScanner.readMem mem a n).getD i 0 = mem (a + i) := by
  unfold PatternScanner.readMem
  rw [List.getD_eq_getElem?_getD, List.getElem?_map, List.getElem?_range h]
  rfl

theorem matchPattern_readMem (mem : Nat → Nat) (a n : Nat) (pat : List Nat)
    (off : Nat) :
    PatternScanner.matchPattern (PatternScanner.readMem mem a n) pat off = true ↔
      off + pat.length ≤ n ∧ occursAt mem (a + off) pat := by
  unfold PatternScanner.matchPattern occursAt
  rw [Bool.and_eq_true, decide_eq_true_iff, readMem_length, List.all_eq_true]
  constructor
  · rintro ⟨hb, hall⟩
    refine ⟨hb, fun i hi => ?_⟩
    have hx := hall i (List.mem_range.mpr hi)
    rw [beq_iff_eq, readMem_getD mem a n (off + i) (by omega), ← Nat.add_assoc] at hx
    exact hx
  · rintro ⟨hb, hocc⟩
    refine ⟨hb, fun i hmem => ?_⟩
    have hi := List.mem_range.mp hmem
    rw [beq_iff_eq, readMem_getD mem a n (off + i) (by omega), ← Nat.add_assoc]
    exact hocc i hi

theorem scanBuffer_readMem_some (mem : Nat → Nat) (a n : Nat) (pat : List Nat)
    (hp : pat ≠ []) (i : Nat) :
    PatternScanner.scanBuffer (PatternScanner.readMem mem a n) pat = some i ↔
      i + pat.length ≤ n ∧ occursAt mem (a + i) pat ∧
        ∀ j, j < i → ¬(j + pat.length ≤ n ∧ occursAt mem (a + j) pat) := by
  have hL : 1 ≤ pat.length := by
    cases pat with
    | nil => cases hp rfl
    | cons x xs => simp
  unfold PatternScanner.scanBuffer
  rw [readMem_length, find_range_eq_some]
  constructor
  · rintro ⟨_, hm, hmin⟩
    rw [matchPattern_readMem] at hm
    refine ⟨hm.1, hm.2, fun j hj hcon => ?_⟩
    have hj2 := hmin j hj
    rw [Bool.eq_false_iff] at hj2
    exact hj2 ((matchPattern_readMem mem a n pat j).mpr hcon)
  · rintro ⟨hb, hocc, hmin⟩
    refine ⟨by omega, (matchPattern_readMem mem a n pat i).mpr ⟨hb, hocc⟩,
      fun j hj => ?_⟩
    rw [Bool.eq_false_iff]
    intro hm
    exact hmin j hj ((matchPattern_readMem mem a n pat j).mp hm)

theorem scanBuffer_readMem_none (mem : Nat → Nat) (a n : Nat) (pat : List Nat)
    (hp : pat ≠ []) :
    PatternScanner.scanBuffer (PatternScanner.readMem mem a n) pat = none ↔
      ∀ j, j + pat.length ≤ n → ¬ occursAt mem (a + j) pat := by
  have hL : 1 ≤ pat.length := by
    cases pat with
    | nil => cases hp rfl
    | cons x xs => simp
  unfold PatternScanner.scanBuffer
  rw [readMem_length, List.find?_eq_none]
  constructor
  · intro h j hj hocc
    have hmem : j ∈ List.range (n + 1 - pat.length) := List.mem_range.mpr (by omega)
    exact h j hmem ((matchPattern_readMem mem a n pat j).mpr ⟨hj, hocc⟩)
  · intro h j _ hm
    have hm2 := (matchPattern_readMem mem a n pat j).mp hm
    exact h j hm2.1 hm2.2

theorem scanChunksGo_succ (readOk : Nat → Nat → Bool) (mem : Nat → Nat)
    (start size : Nat) (pat : List Nat) (n offset : Nat)
    (h : readOk (start + offset)
      (min (PatternScanner.CHUNK_SIZE + pat.length) (size - offset)) = true) :
    PatternScanner.scanChunksGo readOk mem start size pat (n + 1) offset =
      match PatternScanner.scanBuffer
          (PatternScanner.readMem mem (start + offset)
            (min (PatternScanner.CHUNK_SIZE + pat.length) (size - offset))) pat with
      | some i => some (start + offset + i)
      | none =>
        PatternScanner.scanChunksGo readOk mem start size pat n
          (offset + PatternScanner.CHUNK_SIZE) := by
  simp only [PatternScanner.scanChunksGo]
  rw [h]
  simp

theorem scanChunksGo_correct (readOk : Nat → Nat → Bool) (mem : Nat → Nat)
    (start size : Nat) (pat : List Nat) (hp : pat ≠ [])
    (hr : ∀ x y, readOk x y = true) :
    ∀ n offset,
      size ≤ offset + n * PatternScanner.CHUNK_SIZE →
      (∀ j, j + pat.length ≤ size → occursAt mem (start + j) pat → offset ≤ j) →
      PatternScanner.scanChunksGo readOk mem start size pat n offset =
        ((List.range size).find? fun k =>
          decide (k + pat.length ≤ size) && decide (occursAt mem (start + k) pat)).map
          (fun k => start + k) := by
  have hL : 1 ≤ pat.length := by
    cases pat with
    | nil => cases hp rfl
    | cons x xs => simp
  intro n
  induction n with
  | zero =>
    intro offset hcov hbef
    simp only [PatternScanner.scanChunksGo]
    symm
    rw [Option.map_eq_none', List.find?_eq_none]
    intro k _ hpk
    rw [Bool.and_eq_true, decide_eq_true_iff, decide_eq_true_iff] at hpk
    have hk1 := hbef k hpk.1 hpk.2
    simp only [Nat.zero_mul, Nat.add_zero] at hcov
    omega
  | succ n ih =>
    intro offset hcov hbef
    rw [scanChunksGo_succ readOk mem start size pat n offset (hr _ _)]
    cases hsb : PatternScanner.scanBuffer
        (PatternScanner.readMem mem (start + offset)
          (min (PatternScanner.CHUNK_SIZE + pat.length) (size - offset))) pat with
    | some i =>
      obtain ⟨hbnd, hocc, hmin⟩ :=
        (scanBuffer_readMem_some mem (start + offset)
          (min (PatternScanner.CHUNK_SIZE + pat.length) (size - offset)) pat hp i).mp hsb
      have hbnd2 : i + pat.length ≤ size - offset :=
        le_trans hbnd (Nat.min_le_right _ _)
      have hval : offset + i + pat.length ≤ size := by omega
      symm
      rw [Option.map_eq_some']
      refine ⟨offset + i, ?_, by omega⟩
      rw [find_range_eq_some]
      refine ⟨by omega, ?_, ?_⟩
      · rw [Bool.and_eq_true, decide_eq_true_iff, decide_eq_true_iff]
        refine ⟨hval, ?_⟩
        rw [← Nat.add_assoc]
        exact hocc
      · intro j hj
        rw [Bool.eq_false_iff]
        intro hpj
        rw [Bool.and_eq_true, decide_eq_true_iff, decide_eq_true_iff] at hpj
        have hoff : offset ≤ j := hbef j hpj.1 hpj.2
        have hji : j - offset < i := by omega
        have hocc2 : occursAt mem (start + offset + (j - offset)) pat := by
          have hx := hpj.2
          rw [show start + j = start + offset + (j - offset) by omega] at hx
          exact hx
        exact hmin (j - offset) hji ⟨by omega, hocc2⟩
    | none =>
      have hnone := (scanBuffer_readMem_none mem (start + offset)
          (min (PatternScanner.CHUNK_SIZE + pat.length) (size - offset)) pat hp).mp hsb
      have hcov2 : size ≤ (offset + PatternScanner.CHUNK_SIZE) + n * PatternScanner.CHUNK_SIZE := by
        rw [Nat.succ_mul] at hcov
        omega
      have hbef2 : ∀ j, j + pat.length ≤ size → occursAt mem (start + j) pat →
          offset + PatternScanner.CHUNK_SIZE ≤ j := by
        intro j hjL hjocc
        have hoff : offset ≤ j := hbef j hjL hjocc
        by_contra hlt
        have hji : j - offset < PatternScanner.CHUNK_SIZE := by omega
        have hbnd3 : (j - offset) + pat.length ≤
            min (PatternScanner.CHUNK_SIZE + pat.length) (size - offset) := by
          rw [Nat.le_min]
          omega
        have hocc2 : occursAt mem (start + offset + (j - offset)) pat := by
          rw [show start + j = start + offset + (j - offset) by omega] at hjocc
          exact hjocc
        exact hnone (j - offset) hbnd3 hocc2
      exact ih (offset + PatternScanner.CHUNK_SIZE) hcov2 hbef2

theorem findPattern_eq_first (readOk : Nat → Nat → Bool) (mem : Nat → Nat)
    (start size : Nat) (pat : List Nat) (hp : pat ≠ [])
    (hr : ∀ x y, readOk x y = true) :
    PatternScanner.findPattern readOk mem start size pat =
      ((List.range size).find? fun k =>
        decide (k + pat.length ≤ size) && decide (occursAt mem (start + k) pat)).map
        (fun k => start + k) := by
  have hne : pat.isEmpty ≠ true := by
    cases pat with
    | nil => cases hp rfl
    | cons x xs => simp
  unfold PatternScanner.findPattern
  rw [if_neg hne]
  refine scanChunksGo_correct readOk mem start size pat hp hr _ 0 ?_ (fun j _ _ => Nat.zero_le j)
  simp only [PatternScanner.CHUNK_SIZE]
  omega

/-- C4: over a fully readable range, the chunked scanner (64 KiB chunks with
a signature-length overlap) returns `startAddress + k` for the lowest `k` at
which the non-empty signature occurs within the range — wherever the chunk
boundaries fall relative to `k` — and returns `none` exactly when the
signature does not occur in the range. -/
theorem c4_scanner_first_match (readOk : Nat → Nat → Bool) (mem : Nat → Nat)
    (start size : Nat) (pat : List Nat) (hp : pat ≠ [])
    (hr : ∀ x y, readOk x y = true) :
    (∀ r, PatternScanner.findPattern readOk mem start size pat = some r ↔
      ∃ k, r = start + k ∧ k + pat.length ≤ size ∧ occursAt mem (start + k) pat ∧
        ∀ j, j < k → j + pat.length ≤ size → ¬ occursAt mem (start + j) pat) ∧
    (PatternScanner.findPattern readOk mem start size pat = none ↔
      ∀ k, k + pat.length ≤ size → ¬ occursAt mem (start + k) pat) := by
  have hL : 1 ≤ pat.length := by
    cases pat with
    | nil => cases hp rfl
    | cons x xs => simp
  rw [findPattern_eq_first readOk mem start size pat hp hr]
  constructor
  · intro r
    rw [Option.map_eq_some']
    constructor
    · rintro ⟨k, hfind, hk⟩
      rw [find_range_eq_some] at hfind
      obtain ⟨hkn, hpk, hmin⟩ := hfind
      rw [Bool.and_eq_true, decide_eq_true_iff, decide_eq_true_iff] at hpk
      refine ⟨k, hk.symm, hpk.1, hpk.2, fun j hj hjL hjocc => ?_⟩
      have hfj := hmin j hj
      rw [Bool.eq_false_iff] at hfj
      exact hfj (by
        rw [Bool.and_eq_true, decide_eq_true_iff, decide_eq_true_iff]
        exact ⟨hjL, hjocc⟩)
    · rintro ⟨k, hrk, hkL, hkocc, hmin⟩
      refine ⟨k, ?_, hrk.symm⟩
      rw [find_range_eq_some]
      refine ⟨by omega, ?_, fun j hj => ?_⟩
      · rw [Bool.and_eq_true, decide_eq_true_iff, decide_eq_true_iff]
        exact ⟨hkL, hkocc⟩
      · rw [Bool.eq_false_iff]
        intro hpj
        rw [Bool.and_eq_true, decide_eq_true_iff, decide_eq_true_iff] at hpj
        exact hmin j hj hpj.1 hpj.2
  · rw [Option.map_eq_none', List.find?_eq_none]
    constructor
    · intro h k hkL hkocc
      have hkmem : k ∈ List.range size := List.mem_range.mpr (by omega)
      have hnk := h k hkmem
      rw [Bool.and_eq_true, decide_eq_true_iff, decide_eq_true_iff] at hnk
      exact hnk ⟨hkL, hkocc⟩
    · intro h k _ hpk
      rw [Bool.and_eq_true, decide_eq_true_iff, decide_eq_true_iff] at hpk
      exact h k hpk.1 hpk.2

-- ===========================================================================
-- Helper lemmas: bundle writes
-- ===========================================================================

theorem writeAllBytes_fst (env : Env) (e : Editor) (v : Nat) (addrs : List Nat) :
    ∀ s : MState, (MemoryEditor.writeAllBytes env e v s addrs).1 = true ↔
      ∀ a ∈ addrs,
        (MemoryEditor.isAttached env e && env.protOk a 1 && env.writeOk a 1) = true := by
  induction addrs with
  | nil => intro s; simp [MemoryEditor.writeAllBytes]
  | cons x xs ih =>
    intro s
    show ((MemoryEditor.writeByte env e s x v).1 &&
        (MemoryEditor.writeAllBytes env e v
          (MemoryEditor.writeByte env e s x v).2 xs).1) = true ↔ _
    rw [Bool.and_eq_true, writeByte_fst, ih]
    constructor
    · rintro ⟨h1, h2⟩ a ha
      rcases List.mem_cons.mp ha with rfl | ha2
      · exact h1
      · exact h2 a ha2
    · intro h
      exact ⟨h x (List.mem_cons_self x xs), fun a ha => h a (List.mem_cons_of_mem x ha)⟩

theorem writeAllBytes_mem_frame (env : Env) (e : Editor) (v : Nat) (addrs : List Nat) :
    ∀ (s : MState) (a : Nat),
      (MemoryEditor.writeAllBytes env e v s addrs).2.mem a = v ∨
      (MemoryEditor.writeAllBytes env e v s addrs).2.mem a = s.mem a := by
  induction addrs with
  | nil => intro s a; right; rfl
  | cons x xs ih =>
    intro s a
    show ((MemoryEditor.writeAllBytes env e v
          (MemoryEditor.writeByte env e s x v).2 xs).2.mem a = v ∨
        (MemoryEditor.writeAllBytes env e v
          (MemoryEditor.writeByte env e s x v).2 xs).2.mem a = s.mem a)
    rcases ih (MemoryEditor.writeByte env e s x v).2 a with h | h
    · left; exact h
    · rw [h, writeByte_mem]
      by_cases hc : MemoryEditor.isAttached env e = true ∧ env.protOk x 1 = true ∧
          env.writeOk x 1 = true
      · rw [if_pos hc, writeRange_single]
        by_cases hax : a = x
        · left; rw [if_pos hax]
        · right; rw [if_neg hax]
      · right; rw [if_neg hc]

theorem writeAllBytes_mem_of_ok (env : Env) (e : Editor) (v : Nat) (addrs : List Nat) :
    ∀ (s : MState) (a : Nat), a ∈ addrs →
      (MemoryEditor.isAttached env e && env.protOk a 1 && env.writeOk a 1) = true →
      (MemoryEditor.writeAllBytes env e v s addrs).2.mem a = v := by
  induction addrs with
  | nil => intro s a ha; cases ha
  | cons x xs ih =>
    intro s a ha hok
    show ((MemoryEditor.writeAllBytes env e v
        (MemoryEditor.writeByte env e s x v).2 xs).2.mem a = v)
    rcases List.mem_cons.mp ha with rfl | hxs
    · rcases writeAllBytes_mem_frame env e v xs (MemoryEditor.writeByte env e s a v).2 a
        with h | h
      · exact h
      · rw [h, writeByte_mem]
        simp only [Bool.and_eq_true] at hok
        rw [if_pos ⟨hok.1.1, hok.1.2, hok.2⟩, writeRange_single, if_pos rfl]
    · exact ih (MemoryEditor.writeByte env e s x v).2 a hxs hok

theorem enableBundle_ok_iff (env : Env) (e : Editor) (s : MState)
    (b : Patches.UnlockBundle) :
    (MemoryEditor.enableBundle env e s b).1 = true ↔
      MemoryEditor.isAttached env e = true ∧
        ∀ a ∈ b.addresses,
          (MemoryEditor.isAttached env e && env.protOk a 1 && env.writeOk a 1) = true := by
  simp only [MemoryEditor.enableBundle]
  split
  · next ha =>
    split
    · next hw =>
      simp only [true_iff, eq_self_iff_true]
      exact ⟨ha, (writeAllBytes_fst env e 1 b.addresses s).mp hw⟩
    · next hw =>
      simp only [Bool.false_eq_true, false_iff]
      intro hcon
      exact hw ((writeAllBytes_fst env e 1 b.addresses s).mpr hcon.2)
  · next ha =>
    simp only [Bool.false_eq_true, false_iff]
    intro hcon
    exact ha hcon.1

theorem enableBundle_bundle (env : Env) (e : Editor) (s : MState)
    (b : Patches.UnlockBundle) :
    ((MemoryEditor.enableBundle env e s b).1 = true →
      (MemoryEditor.enableBundle env e s b).2.2.2 = { b with enabled := true }) ∧
    ((MemoryEditor.enableBundle env e s b).1 = false →
      (MemoryEditor.enableBundle env e s b).2.2.2 = b) := by
  simp only [MemoryEditor.enableBundle]
  split
  · split
    · exact ⟨fun _ => rfl, fun hcon => by simp at hcon⟩
    · exact ⟨fun hcon => by simp at hcon, fun _ => rfl⟩
  · exact ⟨fun hcon => by simp at hcon, fun _ => rfl⟩

theorem enableBundle_state (env : Env) (e : Editor) (s : MState)
    (b : Patches.UnlockBundle) (ha : MemoryEditor.isAttached env e = true) :
    (MemoryEditor.enableBundle env e s b).2.2.1 =
      (MemoryEditor.writeAllBytes env e 1 s b.addresses).2 := by
  simp only [MemoryEditor.enableBundle]
  rw [if_pos ha]
  split <;> rfl

theorem disableBundle_ok_iff (env : Env) (e : Editor) (s : MState)
    (b : Patches.UnlockBundle) :
    (MemoryEditor.disableBundle env e s b).1 = true ↔
      MemoryEditor.isAttached env e = true ∧
        ∀ a ∈ b.addresses,
          (MemoryEditor.isAttached env e && env.protOk a 1 && env.writeOk a 1) = true := by
  simp only [MemoryEditor.disableBundle]
  split
  · next ha =>
    split
    · next hw =>
      simp only [true_iff, eq_self_iff_true]
      exact ⟨ha, (writeAllBytes_fst env e 0 b.addresses s).mp hw⟩
    · next hw =>
      simp only [Bool.false_eq_true, false_iff]
      intro hcon
      exact hw ((writeAllBytes_fst env e 0 b.addresses s).mpr hcon.2)
  · next ha =>
    simp only [Bool.false_eq_true, false_iff]
    intro hcon
    exact ha hcon.1

theorem disableBundle_bundle (env : Env) (e : Editor) (s : MState)
    (b : Patches.UnlockBundle) :
    ((MemoryEditor.disableBundle env e s b).1 = true →
      (MemoryEditor.disableBundle env e s b).2.2.2 = { b with enabled := false }) ∧
    ((MemoryEditor.disableBundle env e s b).1 = false →
      (MemoryEditor.disableBundle env e s b).2.2.2 = b) := by
  simp only [MemoryEditor.disableBundle]
  split
  · split
    · exact ⟨fun _ => rfl, fun hcon => by simp at hcon⟩
    · exact ⟨fun hcon => by simp at hcon, fun _ => rfl⟩
  · exact ⟨fun hcon => by simp at hcon, fun _ => rfl⟩

theorem disableBundle_state (env : Env) (e : Editor) (s : MState)
    (b : Patches.UnlockBundle) (ha : MemoryEditor.isAttached env e = true) :
    (MemoryEditor.disableBundle env e s b).2.2.1 =
      (MemoryEditor.writeAllBytes env e 0 s b.addresses).2 := by
  simp only [MemoryEditor.disableBundle]
  rw [if_pos ha]
  split <;> rfl

/-- C5: `enableBundle` succeeds exactly when attached and every per-address
byte write succeeds; only then is the bundle marked enabled, a failure leaves
the bundle record (its `enabled` flag) untouched, and every address whose own
write succeeded retains the written value `1` even when the bundle as a whole
failed (no rollback). `disableBundle` is symmetric with value `0`. -/
theorem c5_bundle_non_atomic (env : Env) (e : Editor) (s : MState)
    (b : Patches.UnlockBundle) :
    ((MemoryEditor.enableBundle env e s b).1 = true ↔
      MemoryEditor.isAttached env e = true ∧
        ∀ a ∈ b.addresses,
          (MemoryEditor.isAttached env e && env.protOk a 1 && env.writeOk a 1) = true) ∧
    ((MemoryEditor.enableBundle env e s b).1 = true →
      (MemoryEditor.enableBundle env e s b).2.2.2 = { b with enabled := true }) ∧
    ((MemoryEditor.enableBundle env e s b).1 = false →
      (MemoryEditor.enableBundle env e s b).2.2.2 = b) ∧
    (MemoryEditor.isAttached env e = true →
      ∀ a ∈ b.addresses,
        (MemoryEditor.isAttached env e && env.protOk a 1 && env.writeOk a 1) = true →
        (MemoryEditor.enableBundle env e s b).2.2.1.mem a = 1) ∧
    ((MemoryEditor.disableBundle env e s b).1 = true ↔
      MemoryEditor.isAttached env e = true ∧
        ∀ a ∈ b.addresses,
          (MemoryEditor.isAttached env e && env.protOk a 1 && env.writeOk a 1) = true) ∧
    ((MemoryEditor.disableBundle env e s b).1 = true →
      (MemoryEditor.disableBundle env e s b).2.2.2 = { b with enabled := false }) ∧
    ((MemoryEditor.disableBundle env e s b).1 = false →
      (MemoryEditor.disableBundle env e s b).2.2.2 = b) ∧
    (MemoryEditor.isAttached env e = true →
      ∀ a ∈ b.addresses,
        (MemoryEditor.isAttached env e && env.protOk a 1 && env.writeOk a 1) = true →
        (MemoryEditor.disableBundle env e s b).2.2.1.mem a = 0) := by
  refine ⟨enableBundle_ok_iff env e s b, (enableBundle_bundle env e s b).1,
    (enableBundle_bundle env e s b).2, ?_, disableBundle_ok_iff env e s b,
    (disableBundle_bundle env e s b).1, (disableBundle_bundle env e s b).2, ?_⟩
  · intro ha a hmem hok
    rw [enableBundle_state env e s b ha]
    exact writeAllBytes_mem_of_ok env e 1 b.addresses s a hmem hok
  · intro ha a hmem hok
    rw [disableBundle_state env e s b ha]
    exact writeAllBytes_mem_of_ok env e 0 b.addresses s a hmem hok

-- ===========================================================================
-- C6 / C7 / C9 / C10
-- ===========================================================================

/-- C6: an individual enable/disable toggle request for an item with
`selectable = false` is a rejected no-op: the handler returns without writing
any byte (memory state unchanged) and without touching the item. -/
theorem c6_nonselectable_rejected (env : Env) (e : Editor) (s : MState)
    (item : Patches.UnlockItem) (checked : Bool)
    (h : item.selectable = false) :
    MainWindow.onIndividualUnlockToggled env e s item checked = (e, s, item) := by
  simp only [MainWindow.onIndividualUnlockToggled]
  by_cases ha : MemoryEditor.isAttached env e = true
  · rw [if_pos ha, if_neg (by simp [h])]
  · rw [if_neg ha]

/-- Sample environment: every OS call succeeds, the module `ffxv_s.exe` is
found at base 4096 with image size 8, the target process is pid 7 and alive. -/
def sampleEnv : Env :=
  { readOk := fun _ _ => true, writeOk := fun _ _ => true, protOk := fun _ _ => true,
    modFound := true, modBase := 4096, modSize := 8, pid := 7, openOk := true,
    alive := true }

/-- Sample target memory: bytes `9, 8` at addresses 4099, 4100, zero elsewhere. -/
def sampleMem : Nat → Nat :=
  fun a => if a = 4099 then 9 else if a = 4100 then 8 else 0

/-- Sample attached editor with an empty pattern cache. -/
def sampleEd : Editor :=
  { processHandle := true, processId := 7, processName := "ffxv_s.exe",
    lastError := "", patternCache := fun _ => none, errors := [], scanCount := 0 }

/-- Sample memory/protection state. -/
def sampleSt : MState := { mem := sampleMem, prot := fun _ => 2 }

/-- A patch whose signature `9, 8` resolves at 4099; with offset 1 it
replaces the byte `8` at 4100 by `5`. -/
def samplePatch : Patches.Patch :=
  { name := "p", pattern := [9, 8], offset := 1, original := [8], patched := [5],
    enabled := false }

/-- A patch whose signature `7, 7` is absent from the sample memory, so its
application fails with a pattern-not-found error. -/
def sampleMissing : Patches.Patch :=
  { name := "q", pattern := [7, 7], offset := 0, original := [0], patched := [1],
    enabled := false }

/-- C7 counterexample: in the sample state, the first patch of the ordered
list fails to apply (its signature is absent), yet `applyAllPatches` still
applies the subsequent patch — its `enabled` flag ends up `true` — refuting
the claim that bulk apply stops advancing after a failure. -/
theorem c7_counterexample :
    (MemoryEditor.applyPatch sampleEnv sampleEd sampleSt sampleMissing).1 = false ∧
    (MemoryEditor.applyAllPatches sampleEnv sampleEd sampleSt
      [sampleMissing, samplePatch]).1 = false ∧
    ((MemoryEditor.applyAllPatches sampleEnv sampleEd sampleSt
      [sampleMissing, samplePatch]).2.2.2.getD 1 sampleMissing).enabled = true := by
  refine ⟨by decide, by decide, by decide⟩

/-- C7 (amended): `applyAllPatches` processes the caller's list in the given
order but does not stop after a failure: when the first (not yet enabled)
patch fails to apply, the aggregate result is `false` and the second patch is
still individually applied, in the state left by the failed first attempt. -/
theorem c7_bulk_apply_continues (env : Env) (e : Editor) (s : MState)
    (p q : Patches.Patch) (hp : p.enabled = false) (hq : q.enabled = false)
    (h1 : (MemoryEditor.applyPatch env e s p).1 = false) :
    (MemoryEditor.applyAllPatches env e s [p, q]).1 = false ∧
    (MemoryEditor.applyAllPatches env e s [p, q]).2.2.2 =
      [(MemoryEditor.applyPatch env e s p).2.2.2,
        (MemoryEditor.applyPatch env (MemoryEditor.applyPatch env e s p).2.1
          (MemoryEditor.applyPatch env e s p).2.2.1 q).2.2.2] := by
  simp [MemoryEditor.applyAllPatches, hp, hq, h1]

/-- C9: while one attach session is live, a successful resolution populates
the cache, so resolving the same named patch again is a pure cache hit (the
editor — in particular the ghost scan counter — is unchanged and the same
address is returned, whatever the memory now reads); a cache miss performs
exactly one module scan; `detach` and a successful `attachToProcess` clear
the cache, so the first resolution after a reattach scans afresh. -/
theorem c9_cache_behavior (env : Env) (m m2 : Nat → Nat) (e : Editor)
    (p : Patches.Patch) (nm : String) :
    ((MemoryEditor.findPatternAddress env m e p).1 ≠ 0 →
      MemoryEditor.findPatternAddress env m2
          (MemoryEditor.findPatternAddress env m e p).2 p =
        ((MemoryEditor.findPatternAddress env m e p).1,
          (MemoryEditor.findPatternAddress env m e p).2)) ∧
    (e.patternCache p.name = none →
      (MemoryEditor.findPatternAddress env m e p).2.scanCount = e.scanCount + 1) ∧
    (e.processHandle = true → ∀ n, (MemoryEditor.detach e).patternCache n = none) ∧
    ((MemoryEditor.attachToProcess env e nm).1 = true →
      ∀ n, (MemoryEditor.attachToProcess env e nm).2.patternCache n = none) ∧
    ((MemoryEditor.attachToProcess env e nm).1 = true →
      (MemoryEditor.findPatternAddress env m
        (MemoryEditor.attachToProcess env e nm).2 p).2.scanCount =
        (MemoryEditor.attachToProcess env e nm).2.scanCount + 1) := by
  have hattach : (MemoryEditor.attachToProcess env e nm).1 = true →
      ∀ n, (MemoryEditor.attachToProcess env e nm).2.patternCache n = none := by
    intro h n
    simp only [MemoryEditor.attachToProcess] at h ⊢
    by_cases hpid : env.pid = 0
    · rw [if_pos hpid] at h
      simp at h
    · rw [if_neg hpid] at h ⊢
      by_cases hopen : env.openOk = true
      · rw [if_pos hopen]
      · rw [if_neg hopen] at h
        simp at h
  refine ⟨?_, fpa_scanCount_miss env m e p, ?_, hattach, ?_⟩
  · intro h
    exact fpa_cache_hit env m2 _ p _ (fpa_cache_after env m e p h)
  · intro h n
    simp only [MemoryEditor.detach]
    rw [if_pos h]
  · intro h
    exact fpa_scanCount_miss env m _ p (hattach h p.name)

/-- C10: calling `attachToProcess` while already attached first detaches the
old session, so a failed attach (process not found or open denied) leaves the
engine unattached — handle released, process id cleared, pattern cache
cleared — even though it was attached before the call. -/
theorem c10_failed_reattach_not_atomic (env : Env) (e : Editor) (nm : String)
    (hprev : e.processHandle = true)
    (hfail : (MemoryEditor.attachToProcess env e nm).1 = false) :
    (MemoryEditor.attachToProcess env e nm).2.processHandle = false ∧
    (MemoryEditor.attachToProcess env e nm).2.processId = 0 ∧
    ∀ n, (MemoryEditor.attachToProcess env e nm).2.patternCache n = none := by
  simp only [MemoryEditor.attachToProcess, MemoryEditor.detach, hprev, if_true] at hfail ⊢
  by_cases hpid : env.pid = 0
  · rw [if_pos hpid] at hfail ⊢
    exact ⟨rfl, rfl, fun n => rfl⟩
  · rw [if_neg hpid] at hfail ⊢
    by_cases hopen : env.openOk = true
    · rw [if_pos hopen] at hfail
      simp at hfail
    · rw [if_neg hopen] at hfail ⊢
      exact ⟨rfl, rfl, fun n => rfl⟩

-- ===========================================================================
-- Helper: generic shape of the six bulk loops
-- ===========================================================================

/-- The loop shared by all six bulk operations: process `x` by `step` when
`proc? x`, otherwise skip it, `&&`-ing the per-item results and never
stopping early. Each concrete bulk function is proved equal to an instance
of this combinator below. -/
def bulkGo (step : Editor → MState → α → Bool × Editor × MState × α)
    (proc? : α → Bool) : Editor → MState → List α → Bool × Editor × MState × List α
  | e, s, [] => (true, e, s, [])
  | e, s, x :: xs =>
    if proc? x then
      let r1 := step e s x
      let r := bulkGo step proc? r1.2.1 r1.2.2.1 xs
      (r1.1 && r.1, r.2.1, r.2.2.1, r1.2.2.2 :: r.2.2.2)
    else
      let r := bulkGo step proc? e s xs
      (r.1, r.2.1, r.2.2.1, x :: r.2.2.2)

theorem bulkGo_skip (step : Editor → MState → α → Bool × Editor × MState × α)
    (proc? : α → Bool) :
    ∀ (e : Editor) (s : MState) (xs : List α), (∀ x ∈ xs, proc? x = false) →
      bulkGo step proc? e s xs = (true, e, s, xs) := by
  intro e s xs
  induction xs generalizing e s with
  | nil => intro _; rfl
  | cons x xs ih =>
    intro h
    have hx : proc? x = false := h x (List.mem_cons_self x xs)
    simp only [bulkGo]
    rw [if_neg (by simp [hx]), ih e s (fun y hy => h y (List.mem_cons_of_mem x hy))]

theorem bulkGo_continue (step : Editor → MState → α → Bool × Editor × MState × α)
    (proc? : α → Bool) (e : Editor) (s : MState) (p : α) (ps : List α)
    (hproc : proc? p = true) (h1 : (step e s p).1 = false) :
    bulkGo step proc? e s (p :: ps) =
      (false, (bulkGo step proc? (step e s p).2.1 (step e s p).2.2.1 ps).2.1,
        (bulkGo step proc? (step e s p).2.1 (step e s p).2.2.1 ps).2.2.1,
        (step e s p).2.2.2 ::
          (bulkGo step proc? (step e s p).2.1 (step e s p).2.2.1 ps).2.2.2) := by
  simp only [bulkGo]
  rw [if_pos hproc, h1]
  simp

theorem bulkGo_errors_suffix (step : Editor → MState → α → Bool × Editor × MState × α)
    (proc? : α → Bool)
    (hsx : ∀ (e : Editor) (s : MState) (x : α), ∃ l, (step e s x).2.1.errors = l ++ e.errors) :
    ∀ (e : Editor) (s : MState) (xs : List α),
      ∃ l, (bulkGo step proc? e s xs).2.1.errors = l ++ e.errors := by
  intro e s xs
  induction xs generalizing e s with
  | nil => exact ⟨[], rfl⟩
  | cons x xs ih =>
    simp only [bulkGo]
    by_cases hx : proc? x = true
    · rw [if_pos hx]
      obtain ⟨l1, hl1⟩ := hsx e s x
      obtain ⟨l2, hl2⟩ := ih (step e s x).2.1 (step e s x).2.2.1
      exact ⟨l2 ++ l1, by rw [hl2, hl1, List.append_assoc]⟩
    · rw [if_neg hx]
      exact ih e s
  -- error logs only grow across a bulk run

theorem bulkGo_mem_errors (step : Editor → MState → α → Bool × Editor × MState × α)
    (proc? : α → Bool)
    (hsx : ∀ (e : Editor) (s : MState) (x : α), ∃ l, (step e s x).2.1.errors = l ++ e.errors)
    (e : Editor) (s : MState) (xs : List α) (msg : String) (h : msg ∈ e.errors) :
    msg ∈ (bulkGo step proc? e s xs).2.1.errors := by
  obtain ⟨l, hl⟩ := bulkGo_errors_suffix step proc? hsx e s xs
  rw [hl]
  exact List.mem_append_right l h

theorem bulkGo_true_iff (step : Editor → MState → α → Bool × Editor × MState × α)
    (proc? inState : α → Bool)
    (hok : ∀ (e : Editor) (s : MState) (x : α),
      (step e s x).1 = true → inState (step e s x).2.2.2 = true)
    (hfail : ∀ (e : Editor) (s : MState) (x : α),
      (step e s x).1 = false → (step e s x).2.2.2 = x)
    (hskip : ∀ x, proc? x = false → inState x = true)
    (hdo : ∀ x, proc? x = true → inState x = false) :
    ∀ (e : Editor) (s : MState) (xs : List α),
      (bulkGo step proc? e s xs).1 = true ↔
        ∀ y ∈ (bulkGo step proc? e s xs).2.2.2, inState y = true := by
  intro e s xs
  induction xs generalizing e s with
  | nil => simp [bulkGo]
  | cons x xs ih =>
    simp only [bulkGo]
    by_cases hx : proc? x = true
    · rw [if_pos hx]
      show ((step e s x).1 &&
          (bulkGo step proc? (step e s x).2.1 (step e s x).2.2.1 xs).1) = true ↔ _
      rw [Bool.and_eq_true]
      constructor
      · rintro ⟨h1, h2⟩ y hy
        rcases List.mem_cons.mp hy with rfl | hy2
        · exact hok e s x h1
        · exact ((ih (step e s x).2.1 (step e s x).2.2.1).mp h2) y hy2
      · intro h
        have h1 : (step e s x).1 = true := by
          rcases Bool.eq_false_or_eq_true (step e s x).1 with ht | hf
          · exact ht
          · exfalso
            have hy := h (step e s x).2.2.2 (List.mem_cons_self _ _)
            rw [hfail e s x hf] at hy
            rw [hdo x hx] at hy
            cases hy
        exact ⟨h1, (ih (step e s x).2.1 (step e s x).2.2.1).mpr
          (fun y hy => h y (List.mem_cons_of_mem _ hy))⟩
    · rw [if_neg hx]
      have hxf : proc? x = false := by
        rcases Bool.eq_false_or_eq_true (proc? x) with ht | hf
        · exact absurd ht hx
        · exact hf
      show (bulkGo step proc? e s xs).1 = true ↔ _
      rw [ih e s]
      constructor
      · intro h y hy
        rcases List.mem_cons.mp hy with rfl | hy2
        · exact hskip y hxf
        · exact h y hy2
      · intro h y hy
        exact h y (List.mem_cons_of_mem _ hy)

-- ===========================================================================
-- Helper lemmas: per-operation outcome, error log, failure naming
-- ===========================================================================

theorem applyPatch_ok_enabled (env : Env) (e : Editor) (s : MState) (p : Patches.Patch)
    (h : (MemoryEditor.applyPatch env e s p).1 = true) :
    (MemoryEditor.applyPatch env e s p).2.2.2.enabled = true := by
  rw [(applyPatch_ok env e s p h).2.2.2]

theorem applyPatch_errors_suffix (env : Env) (e : Editor) (s : MState)
    (p : Patches.Patch) :
    ∃ l, (MemoryEditor.applyPatch env e s p).2.1.errors = l ++ e.errors := by
  by_cases ha : MemoryEditor.isAttached env e = true
  · by_cases h0 : (MemoryEditor.findPatternAddress env s.mem e p).1 = 0
    · exact ⟨["Pattern not found: " ++ p.name],
        by simp [MemoryEditor.applyPatch, ha, h0, fpa_errors]⟩
    · by_cases hw : (MemoryEditor.writeProtectedMemory env s
          ((MemoryEditor.findPatternAddress env s.mem e p).1 + p.offset) p.patched).1 = true
      · exact ⟨[], by simp [MemoryEditor.applyPatch, ha, h0, hw, fpa_errors]⟩
      · exact ⟨["Failed to write patch: " ++ p.name],
          by simp [MemoryEditor.applyPatch, ha, h0, hw, fpa_errors]⟩
  · exact ⟨["Not attached to process"], by simp [MemoryEditor.applyPatch, ha]⟩

theorem applyPatch_fail_names (env : Env) (e : Editor) (s : MState)
    (p : Patches.Patch) (ha : MemoryEditor.isAttached env e = true)
    (hf : (MemoryEditor.applyPatch env e s p).1 = false) :
    ("Pattern not found: " ++ p.name) ∈ (MemoryEditor.applyPatch env e s p).2.1.errors ∨
    ("Failed to write patch: " ++ p.name) ∈ (MemoryEditor.applyPatch env e s p).2.1.errors := by
  by_cases h0 : (MemoryEditor.findPatternAddress env s.mem e p).1 = 0
  · left
    simp [MemoryEditor.applyPatch, ha, h0]
  · by_cases hw : (MemoryEditor.writeProtectedMemory env s
        ((MemoryEditor.findPatternAddress env s.mem e p).1 + p.offset) p.patched).1 = true
    · exfalso
      simp [MemoryEditor.applyPatch, ha, h0, hw] at hf
    · right
      simp [MemoryEditor.applyPatch, ha, h0, hw]

theorem removePatch_ok_enabled (env : Env) (e : Editor) (s : MState) (p : Patches.Patch)
    (h : (MemoryEditor.removePatch env e s p).1 = true) :
    (MemoryEditor.removePatch env e s p).2.2.2.enabled = false := by
  by_cases ha : MemoryEditor.isAttached env e = true
  · cases hc : e.patternCache p.name with
    | some a =>
      by_cases h0 : a = 0
      · simp [MemoryEditor.removePatch, ha, hc, h0] at h
      · by_cases hw : (MemoryEditor.writeProtectedMemory env s (a + p.offset) p.original).1 = true
        · simp [MemoryEditor.removePatch, ha, hc, h0, hw]
        · simp [MemoryEditor.removePatch, ha, hc, h0, hw] at h
    | none =>
      by_cases h0 : (MemoryEditor.findPatternAddress env s.mem e p).1 = 0
      · simp [MemoryEditor.removePatch, ha, hc, h0] at h
      · by_cases hw : (MemoryEditor.writeProtectedMemory env s
            ((MemoryEditor.findPatternAddress env s.mem e p).1 + p.offset) p.original).1 = true
        · simp [MemoryEditor.removePatch, ha, hc, h0, hw]
        · simp [MemoryEditor.removePatch, ha, hc, h0, hw] at h
  · simp [MemoryEditor.removePatch, ha] at h

theorem removePatch_errors_suffix (env : Env) (e : Editor) (s : MState)
    (p : Patches.Patch) :
    ∃ l, (MemoryEditor.removePatch env e s p).2.1.errors = l ++ e.errors := by
  by_cases ha : MemoryEditor.isAttached env e = true
  · cases hc : e.patternCache p.name with
    | some a =>
      by_cases h0 : a = 0
      · exact ⟨["Cannot find patch location: " ++ p.name],
          by simp [MemoryEditor.removePatch, ha, hc, h0]⟩
      · by_cases hw : (MemoryEditor.writeProtectedMemory env s (a + p.offset) p.original).1 = true
        · exact ⟨[], by simp [MemoryEditor.removePatch, ha, hc, h0, hw]⟩
        · exact ⟨["Failed to restore original bytes: " ++ p.name],
            by simp [MemoryEditor.removePatch, ha, hc, h0, hw]⟩
    | none =>
      by_cases h0 : (MemoryEditor.findPatternAddress env s.mem e p).1 = 0
      · exact ⟨["Cannot find patch location: " ++ p.name],
          by simp [MemoryEditor.removePatch, ha, hc, h0, fpa_errors]⟩
      · by_cases hw : (MemoryEditor.writeProtectedMemory env s
            ((MemoryEditor.findPatternAddress env s.mem e p).1 + p.offset) p.original).1 = true
        · exact ⟨[], by simp [MemoryEditor.removePatch, ha, hc, h0, hw, fpa_errors]⟩
        · exact ⟨["Failed to restore original bytes: " ++ p.name],
            by simp [MemoryEditor.removePatch, ha, hc, h0, hw, fpa_errors]⟩
  · exact ⟨["Not attached to process"], by simp [MemoryEditor.removePatch, ha]⟩

theorem removePatch_fail_names (env : Env) (e : Editor) (s : MState)
    (p : Patches.Patch) (ha : MemoryEditor.isAttached env e = true)
    (hf : (MemoryEditor.removePatch env e s p).1 = false) :
    ("Cannot find patch location: " ++ p.name) ∈
        (MemoryEditor.removePatch env e s p).2.1.errors ∨
    ("Failed to restore original bytes: " ++ p.name) ∈
        (MemoryEditor.removePatch env e s p).2.1.errors := by
  cases hc : e.patternCache p.name with
  | some a =>
    by_cases h0 : a = 0
    · left; simp [MemoryEditor.removePatch, ha, hc, h0]
    · by_cases hw : (MemoryEditor.writeProtectedMemory env s (a + p.offset) p.original).1 = true
      · exfalso; simp [MemoryEditor.removePatch, ha, hc, h0, hw] at hf
      · right; simp [MemoryEditor.removePatch, ha, hc, h0, hw]
  | none =>
    by_cases h0 : (MemoryEditor.findPatternAddress env s.mem e p).1 = 0
    · left; simp [MemoryEditor.removePatch, ha, hc, h0]
    · by_cases hw : (MemoryEditor.writeProtectedMemory env s
          ((MemoryEditor.findPatternAddress env s.mem e p).1 + p.offset) p.original).1 = true
      · exfalso; simp [MemoryEditor.removePatch, ha, hc, h0, hw] at hf
      · right; simp [MemoryEditor.removePatch, ha, hc, h0, hw]

theorem enableUnlock_parts (env : Env) (e : Editor) (s : MState)
    (item : Patches.UnlockItem) :
    ((MemoryEditor.enableUnlock env e s item).1 = true →
      (MemoryEditor.enableUnlock env e s item).2.2.2 = { item with enabled := true }) ∧
    ((MemoryEditor.enableUnlock env e s item).1 = false →
      (MemoryEditor.enableUnlock env e s item).2.2.2 = item) ∧
    (∃ l, (MemoryEditor.enableUnlock env e s item).2.1.errors = l ++ e.errors) ∧
    (MemoryEditor.isAttached env e = true →
      (MemoryEditor.enableUnlock env e s item).1 = false →
      ("Failed to enable unlock: " ++ item.name) ∈
        (MemoryEditor.enableUnlock env e s item).2.1.errors) := by
  simp only [MemoryEditor.enableUnlock]
  split
  · split
    · exact ⟨fun _ => rfl, fun hcon => by simp at hcon, ⟨[], rfl⟩,
        fun _ hcon => by simp at hcon⟩
    · exact ⟨fun hcon => by simp at hcon, fun _ => rfl,
        ⟨["Failed to enable unlock: " ++ item.name], rfl⟩,
        fun _ _ => List.mem_cons_self _ _⟩
  · next ha =>
    exact ⟨fun hcon => by simp at hcon, fun _ => rfl,
      ⟨["Not attached to process"], rfl⟩, fun hcon _ => absurd hcon ha⟩

theorem disableUnlock_parts (env : Env) (e : Editor) (s : MState)
    (item : Patches.UnlockItem) :
    ((MemoryEditor.disableUnlock env e s item).1 = true →
      (MemoryEditor.disableUnlock env e s item).2.2.2 = { item with enabled := false }) ∧
    ((MemoryEditor.disableUnlock env e s item).1 = false →
      (MemoryEditor.disableUnlock env e s item).2.2.2 = item) ∧
    (∃ l, (MemoryEditor.disableUnlock env e s item).2.1.errors = l ++ e.errors) ∧
    (MemoryEditor.isAttached env e = true →
      (MemoryEditor.disableUnlock env e s item).1 = false →
      ("Failed to disable unlock: " ++ item.name) ∈
        (MemoryEditor.disableUnlock env e s item).2.1.errors) := by
  simp only [MemoryEditor.disableUnlock]
  split
  · split
    · exact ⟨fun _ => rfl, fun hcon => by simp at hcon, ⟨[], rfl⟩,
        fun _ hcon => by simp at hcon⟩
    · exact ⟨fun hcon => by simp at hcon, fun _ => rfl,
        ⟨["Failed to disable unlock: " ++ item.name], rfl⟩,
        fun _ _ => List.mem_cons_self _ _⟩
  · next ha =>
    exact ⟨fun hcon => by simp at hcon, fun _ => rfl,
      ⟨["Not attached to process"], rfl⟩, fun hcon _ => absurd hcon ha⟩

theorem enableBundle_errors_parts (env : Env) (e : Editor) (s : MState)
    (b : Patches.UnlockBundle) :
    (∃ l, (MemoryEditor.enableBundle env e s b).2.1.errors = l ++ e.errors) ∧
    (MemoryEditor.isAttached env e = true →
      (MemoryEditor.enableBundle env e s b).1 = false →
      ("Failed to enable bundle (partial): " ++ b.name) ∈
        (MemoryEditor.enableBundle env e s b).2.1.errors) := by
  simp only [MemoryEditor.enableBundle]
  split
  · split
    · exact ⟨⟨[], rfl⟩, fun _ hcon => by simp at hcon⟩
    · exact ⟨⟨["Failed to enable bundle (partial): " ++ b.name], rfl⟩,
        fun _ _ => List.mem_cons_self _ _⟩
  · next ha =>
    exact ⟨⟨["Not attached to process"], rfl⟩, fun hcon _ => absurd hcon ha⟩

theorem disableBundle_errors_parts (env : Env) (e : Editor) (s : MState)
    (b : Patches.UnlockBundle) :
    (∃ l, (MemoryEditor.disableBundle env e s b).2.1.errors = l ++ e.errors) ∧
    (MemoryEditor.isAttached env e = true →
      (MemoryEditor.disableBundle env e s b).1 = false →
      ("Failed to disable bundle (partial): " ++ b.name) ∈
        (MemoryEditor.disableBundle env e s b).2.1.errors) := by
  simp only [MemoryEditor.disableBundle]
  split
  · split
    · exact ⟨⟨[], rfl⟩, fun _ hcon => by simp at hcon⟩
    · exact ⟨⟨["Failed to disable bundle (partial): " ++ b.name], rfl⟩,
        fun _ _ => List.mem_cons_self _ _⟩
  · next ha =>
    exact ⟨⟨["Not attached to process"], rfl⟩, fun hcon _ => absurd hcon ha⟩

-- ===========================================================================
-- Helper lemmas: the six bulk loops are instances of bulkGo
-- ===========================================================================

theorem applyAllPatches_eq_bulkGo (env : Env) :
    ∀ (e : Editor) (s : MState) (xs : List Patches.Patch),
      MemoryEditor.applyAllPatches env e s xs =
        bulkGo (MemoryEditor.applyPatch env) (fun p => !p.enabled) e s xs := by
  intro e s xs
  induction xs generalizing e s with
  | nil => rfl
  | cons x xs ih =>
    simp only [MemoryEditor.applyAllPatches, bulkGo]
    by_cases hx : x.enabled = true
    · rw [if_pos hx, if_neg (by simp [hx]), ih]
    · rw [if_neg hx, if_pos (by simp [Bool.eq_false_iff.mpr hx]), ih]

theorem removeAllPatches_eq_bulkGo (env : Env) :
    ∀ (e : Editor) (s : MState) (xs : List Patches.Patch),
      MemoryEditor.removeAllPatches env e s xs =
        bulkGo (MemoryEditor.removePatch env) (fun p => p.enabled) e s xs := by
  intro e s xs
  induction xs generalizing e s with
  | nil => rfl
  | cons x xs ih =>
    simp only [MemoryEditor.removeAllPatches, bulkGo]
    by_cases hx : x.enabled = true
    · rw [if_pos hx, if_pos hx, ih]
    · rw [if_neg hx, if_neg hx, ih]

theorem enableAllUnlocks_eq_bulkGo (env : Env) :
    ∀ (e : Editor) (s : MState) (xs : List Patches.UnlockItem),
      MemoryEditor.enableAllUnlocks env e s xs =
        bulkGo (MemoryEditor.enableUnlock env) (fun x => !x.enabled) e s xs := by
  intro e s xs
  induction xs generalizing e s with
  | nil => rfl
  | cons x xs ih =>
    simp only [MemoryEditor.enableAllUnlocks, bulkGo]
    by_cases hx : x.enabled = true
    · rw [if_pos hx, if_neg (by simp [hx]), ih]
    · rw [if_neg hx, if_pos (by simp [Bool.eq_false_iff.mpr hx]), ih]

theorem disableAllUnlocks_eq_bulkGo (env : Env) :
    ∀ (e : Editor) (s : MState) (xs : List Patches.UnlockItem),
      MemoryEditor.disableAllUnlocks env e s xs =
        bulkGo (MemoryEditor.disableUnlock env) (fun x => x.enabled) e s xs := by
  intro e s xs
  induction xs generalizing e s with
  | nil => rfl
  | cons x xs ih =>
    simp only [MemoryEditor.disableAllUnlocks, bulkGo]
    by_cases hx : x.enabled = true
    · rw [if_pos hx, if_pos hx, ih]
    · rw [if_neg hx, if_neg hx, ih]

theorem enableAllBundles_eq_bulkGo (env : Env) :
    ∀ (e : Editor) (s : MState) (xs : List Patches.UnlockBundle),
      MemoryEditor.enableAllBundles env e s xs =
        bulkGo (MemoryEditor.enableBundle env) (fun x => !x.enabled) e s xs := by
  intro e s xs
  induction xs generalizing e s with
  | nil => rfl
  | cons x xs ih =>
    simp only [MemoryEditor.enableAllBundles, bulkGo]
    by_cases hx : x.enabled = true
    · rw [if_pos hx, if_neg (by simp [hx]), ih]
    · rw [if_neg hx, if_pos (by simp [Bool.eq_false_iff.mpr hx]), ih]

theorem disableAllBundles_eq_bulkGo (env : Env) :
    ∀ (e : Editor) (s : MState) (xs : List Patches.UnlockBundle),
      MemoryEditor.disableAllBundles env e s xs =
        bulkGo (MemoryEditor.disableBundle env) (fun x => x.enabled) e s xs := by
  intro e s xs
  induction xs generalizing e s with
  | nil => rfl
  | cons x xs ih =>
    simp only [MemoryEditor.disableAllBundles, bulkGo]
    by_cases hx : x.enabled = true
    · rw [if_pos hx, if_pos hx, ih]
    · rw [if_neg hx, if_neg hx, ih]

/-- C8: each of the six bulk operations iterates the caller's ordered
collection, (i) skips items already in the target state and reports overall
success when everything was skippable, (ii) reports aggregate success exactly
when every item of the returned collection ended in the target state,
(iii) continues past an individual failure — the tail is still processed,
from the state the failure left, with a `false` aggregate — and (iv) a failed
item is reported by an emitted error message carrying its name. -/
theorem c8_bulk_best_effort (env : Env) :
    ((∀ (e : Editor) (s : MState) (ps : List Patches.Patch),
      (∀ x ∈ ps, x.enabled = true) →
        MemoryEditor.applyAllPatches env e s ps = (true, e, s, ps)) ∧
     (∀ (e : Editor) (s : MState) (ps : List Patches.Patch),
      (MemoryEditor.applyAllPatches env e s ps).1 = true ↔
        ∀ y ∈ (MemoryEditor.applyAllPatches env e s ps).2.2.2, y.enabled = true) ∧
     (∀ (e : Editor) (s : MState) (p : Patches.Patch) (ps : List Patches.Patch),
      p.enabled = false → (MemoryEditor.applyPatch env e s p).1 = false →
        MemoryEditor.applyAllPatches env e s (p :: ps) =
          (false,
            (MemoryEditor.applyAllPatches env (MemoryEditor.applyPatch env e s p).2.1
              (MemoryEditor.applyPatch env e s p).2.2.1 ps).2.1,
            (MemoryEditor.applyAllPatches env (MemoryEditor.applyPatch env e s p).2.1
              (MemoryEditor.applyPatch env e s p).2.2.1 ps).2.2.1,
            (MemoryEditor.applyPatch env e s p).2.2.2 ::
              (MemoryEditor.applyAllPatches env (MemoryEditor.applyPatch env e s p).2.1
                (MemoryEditor.applyPatch env e s p).2.2.1 ps).2.2.2)) ∧
     (∀ (e : Editor) (s : MState) (p : Patches.Patch) (ps : List Patches.Patch),
      MemoryEditor.isAttached env e = true → p.enabled = false →
      (MemoryEditor.applyPatch env e s p).1 = false →
        ("Pattern not found: " ++ p.name) ∈
            (MemoryEditor.applyAllPatches env e s (p :: ps)).2.1.errors ∨
        ("Failed to write patch: " ++ p.name) ∈
            (MemoryEditor.applyAllPatches env e s (p :: ps)).2.1.errors)) ∧
    ((∀ (e : Editor) (s : MState) (ps : List Patches.Patch),
      (∀ x ∈ ps, x.enabled = false) →
        MemoryEditor.removeAllPatches env e s ps = (true, e, s, ps)) ∧
     (∀ (e : Editor) (s : MState) (ps : List Patches.Patch),
      (MemoryEditor.removeAllPatches env e s ps).1 = true ↔
        ∀ y ∈ (MemoryEditor.removeAllPatches env e s ps).2.2.2, y.enabled = false) ∧
     (∀ (e : Editor) (s : MState) (p : Patches.Patch) (ps : List Patches.Patch),
      p.enabled = true → (MemoryEditor.removePatch env e s p).1 = false →
        MemoryEditor.removeAllPatches env e s (p :: ps) =
          (false,
            (MemoryEditor.removeAllPatches env (MemoryEditor.removePatch env e s p).2.1
              (MemoryEditor.removePatch env e s p).2.2.1 ps).2.1,
            (MemoryEditor.removeAllPatches env (MemoryEditor.removePatch env e s p).2.1
              (MemoryEditor.removePatch env e s p).2.2.1 ps).2.2.1,
            (MemoryEditor.removePatch env e s p).2.2.2 ::
              (MemoryEditor.removeAllPatches env (MemoryEditor.removePatch env e s p).2.1
                (MemoryEditor.removePatch env e s p).2.2.1 ps).2.2.2)) ∧
     (∀ (e : Editor) (s : MState) (p : Patches.Patch) (ps : List Patches.Patch),
      MemoryEditor.isAttached env e = true → p.enabled = true →
      (MemoryEditor.removePatch env e s p).1 = false →
        ("Cannot find patch location: " ++ p.name) ∈
            (MemoryEditor.removeAllPatches env e s (p :: ps)).2.1.errors ∨
        ("Failed to restore original bytes: " ++ p.name) ∈
            (MemoryEditor.removeAllPatches env e s (p :: ps)).2.1.errors)) ∧
    ((∀ (e : Editor) (s : MState) (xs : List Patches.UnlockItem),
      (∀ x ∈ xs, x.enabled = true) →
        MemoryEditor.enableAllUnlocks env e s xs = (true, e, s, xs)) ∧
     (∀ (e : Editor) (s : MState) (xs : List Patches.UnlockItem),
      (MemoryEditor.enableAllUnlocks env e s xs).1 = true ↔
        ∀ y ∈ (MemoryEditor.enableAllUnlocks env e s xs).2.2.2, y.enabled = true) ∧
     (∀ (e : Editor) (s : MState) (x : Patches.UnlockItem) (xs : List Patches.UnlockItem),
      x.enabled = false → (MemoryEditor.enableUnlock env e s x).1 = false →
        MemoryEditor.enableAllUnlocks env e s (x :: xs) =
          (false,
            (MemoryEditor.enableAllUnlocks env (MemoryEditor.enableUnlock env e s x).2.1
              (MemoryEditor.enableUnlock env e s x).2.2.1 xs).2.1,
            (MemoryEditor.enableAllUnlocks env (MemoryEditor.enableUnlock env e s x).2.1
              (MemoryEditor.enableUnlock env e s x).2.2.1 xs).2.2.1,
            (MemoryEditor.enableUnlock env e s x).2.2.2 ::
              (MemoryEditor.enableAllUnlocks env (MemoryEditor.enableUnlock env e s x).2.1
                (MemoryEditor.enableUnlock env e s x).2.2.1 xs).2.2.2)) ∧
     (∀ (e : Editor) (s : MState) (x : Patches.UnlockItem) (xs : List Patches.UnlockItem),
      MemoryEditor.isAttached env e = true → x.enabled = false →
      (MemoryEditor.enableUnlock env e s x).1 = false →
        ("Failed to enable unlock: " ++ x.name) ∈
          (MemoryEditor.enableAllUnlocks env e s (x :: xs)).2.1.errors)) ∧
    ((∀ (e : Editor) (s : MState) (xs : List Patches.UnlockItem),
      (∀ x ∈ xs, x.enabled = false) →
        MemoryEditor.disableAllUnlocks env e s xs = (true, e, s, xs)) ∧
     (∀ (e : Editor) (s : MState) (xs : List Patches.UnlockItem),
      (MemoryEditor.disableAllUnlocks env e s xs).1 = true ↔
        ∀ y ∈ (MemoryEditor.disableAllUnlocks env e s xs).2.2.2, y.enabled = false) ∧
     (∀ (e : Editor) (s : MState) (x : Patches.UnlockItem) (xs : List Patches.UnlockItem),
      x.enabled = true → (MemoryEditor.disableUnlock env e s x).1 = false →
        MemoryEditor.disableAllUnlocks env e s (x :: xs) =
          (false,
            (MemoryEditor.disableAllUnlocks env (MemoryEditor.disableUnlock env e s x).2.1
              (MemoryEditor.disableUnlock env e s x).2.2.1 xs).2.1,
            (MemoryEditor.disableAllUnlocks env (MemoryEditor.disableUnlock env e s x).2.1
              (MemoryEditor.disableUnlock env e s x).2.2.1 xs).2.2.1,
            (MemoryEditor.disableUnlock env e s x).2.2.2 ::
              (MemoryEditor.disableAllUnlocks env (MemoryEditor.disableUnlock env e s x).2.1
                (MemoryEditor.disableUnlock env e s x).2.2.1 xs).2.2.2)) ∧
     (∀ (e : Editor) (s : MState) (x : Patches.UnlockItem) (xs : List Patches.UnlockItem),
      MemoryEditor.isAttached env e = true → x.enabled = true →
      (MemoryEditor.disableUnlock env e s x).1 = false →
        ("Failed to disable unlock: " ++ x.name) ∈
          (MemoryEditor.disableAllUnlocks env e s (x :: xs)).2.1.errors)) ∧
    ((∀ (e : Editor) (s : MState) (xs : List Patches.UnlockBundle),
      (∀ x ∈ xs, x.enabled = true) →
        MemoryEditor.enableAllBundles env e s xs = (true, e, s, xs)) ∧
     (∀ (e : Editor) (s : MState) (xs : List Patches.UnlockBundle),
      (MemoryEditor.enableAllBundles env e s xs).1 = true ↔
        ∀ y ∈ (MemoryEditor.enableAllBundles env e s xs).2.2.2, y.enabled = true) ∧
     (∀ (e : Editor) (s : MState) (x : Patches.UnlockBundle) (xs : List Patches.UnlockBundle),
      x.enabled = false → (MemoryEditor.enableBundle env e s x).1 = false →
        MemoryEditor.enableAllBundles env e s (x :: xs) =
          (false,
            (MemoryEditor.enableAllBundles env (MemoryEditor.enableBundle env e s x).2.1
              (MemoryEditor.enableBundle env e s x).2.2.1 xs).2.1,
            (MemoryEditor.enableAllBundles env (MemoryEditor.enableBundle env e s x).2.1
              (MemoryEditor.enableBundle env e s x).2.2.1 xs).2.2.1,
            (MemoryEditor.enableBundle env e s x).2.2.2 ::
              (MemoryEditor.enableAllBundles env (MemoryEditor.enableBundle env e s x).2.1
                (MemoryEditor.enableBundle env e s x).2.2.1 xs).2.2.2)) ∧
     (∀ (e : Editor) (s : MState) (x : Patches.UnlockBundle) (xs : List Patches.UnlockBundle),
      MemoryEditor.isAttached env e = true → x.enabled = false →
      (MemoryEditor.enableBundle env e s x).1 = false →
        ("Failed to enable bundle (partial): " ++ x.name) ∈
          (MemoryEditor.enableAllBundles env e s (x :: xs)).2.1.errors)) ∧
    ((∀ (e : Editor) (s : MState) (xs : List Patches.UnlockBundle),
      (∀ x ∈ xs, x.enabled = false) →
        MemoryEditor.disableAllBundles env e s xs = (true, e, s, xs)) ∧
     (∀ (e : Editor) (s : MState) (xs : List Patches.UnlockBundle),
      (MemoryEditor.disableAllBundles env e s xs).1 = true ↔
        ∀ y ∈ (MemoryEditor.disableAllBundles env e s xs).2.2.2, y.enabled = false) ∧
     (∀ (e : Editor) (s : MState) (x : Patches.UnlockBundle) (xs : List Patches.UnlockBundle),
      x.enabled = true → (MemoryEditor.disableBundle env e s x).1 = false →
        MemoryEditor.disableAllBundles env e s (x :: xs) =
          (false,
            (MemoryEditor.disableAllBundles env (MemoryEditor.disableBundle env e s x).2.1
              (MemoryEditor.disableBundle env e s x).2.2.1 xs).2.1,
            (MemoryEditor.disableAllBundles env (MemoryEditor.disableBundle env e s x).2.1
              (MemoryEditor.disableBundle env e s x).2.2.1 xs).2.2.1,
            (MemoryEditor.disableBundle env e s x).2.2.2 ::
              (MemoryEditor.disableAllBundles env (MemoryEditor.disableBundle env e s x).2.1
                (MemoryEditor.disableBundle env e s x).2.2.1 xs).2.2.2)) ∧
     (∀ (e : Editor) (s : MState) (x : Patches.UnlockBundle) (xs : List Patches.UnlockBundle),
      MemoryEditor.isAttached env e = true → x.enabled = true →
      (MemoryEditor.disableBundle env e s x).1 = false →
        ("Failed to disable bundle (partial): " ++ x.name) ∈
          (MemoryEditor.disableAllBundles env e s (x :: xs)).2.1.errors)) := by
  refine ⟨⟨?_, ?_, ?_, ?_⟩, ⟨?_, ?_, ?_, ?_⟩, ⟨?_, ?_, ?_, ?_⟩, ⟨?_, ?_, ?_, ?_⟩,
    ⟨?_, ?_, ?_, ?_⟩, ⟨?_, ?_, ?_, ?_⟩⟩
  -- applyAllPatches
  · intro e s ps h
    rw [applyAllPatches_eq_bulkGo]
    exact bulkGo_skip _ _ e s ps (fun x hx => by simp [h x hx])
  · intro e s ps
    rw [applyAllPatches_eq_bulkGo]
    exact bulkGo_true_iff (MemoryEditor.applyPatch env) _ (fun p => p.enabled)
      (fun e s x h => applyPatch_ok_enabled env e s x h)
      (fun e s x h => (applyPatch_fail env e s x h).1)
      (fun x hx => by simpa using hx) (fun x hx => by simpa using hx) e s ps
  · intro e s p ps hp h1
    rw [applyAllPatches_eq_bulkGo, applyAllPatches_eq_bulkGo]
    exact bulkGo_continue _ _ e s p ps (by simp [hp]) h1
  · intro e s p ps ha hp h1
    have hE : (MemoryEditor.applyAllPatches env e s (p :: ps)).2.1 =
        (bulkGo (MemoryEditor.applyPatch env) (fun q => !q.enabled)
          (MemoryEditor.applyPatch env e s p).2.1
          (MemoryEditor.applyPatch env e s p).2.2.1 ps).2.1 := by
      rw [applyAllPatches_eq_bulkGo, bulkGo_continue _ _ e s p ps (by simp [hp]) h1]
    rcases applyPatch_fail_names env e s p ha h1 with hm | hm
    · left
      rw [hE]
      exact bulkGo_mem_errors _ _ (applyPatch_errors_suffix env) _ _ ps _ hm
    · right
      rw [hE]
      exact bulkGo_mem_errors _ _ (applyPatch_errors_suffix env) _ _ ps _ hm
  -- removeAllPatches
  · intro e s ps h
    rw [removeAllPatches_eq_bulkGo]
    exact bulkGo_skip _ _ e s ps (fun x hx => h x hx)
  · intro e s ps
    rw [removeAllPatches_eq_bulkGo]
    have hiff := bulkGo_true_iff (MemoryEditor.removePatch env) (fun p => p.enabled)
      (fun p => !p.enabled)
      (fun e s x h => by simp [removePatch_ok_enabled env e s x h])
      (fun e s x h => (removePatch_fail env e s x h).1)
      (fun x hx => by simp [hx]) (fun x hx => by simp [hx]) e s ps
    rw [hiff]
    constructor
    · intro h y hy
      simpa using h y hy
    · intro h y hy
      simpa using h y hy
  · intro e s p ps hp h1
    rw [removeAllPatches_eq_bulkGo, removeAllPatches_eq_bulkGo]
    exact bulkGo_continue _ _ e s p ps hp h1
  · intro e s p ps ha hp h1
    have hE : (MemoryEditor.removeAllPatches env e s (p :: ps)).2.1 =
        (bulkGo (MemoryEditor.removePatch env) (fun q => q.enabled)
          (MemoryEditor.removePatch env e s p).2.1
          (MemoryEditor.removePatch env e s p).2.2.1 ps).2.1 := by
      rw [removeAllPatches_eq_bulkGo, bulkGo_continue _ _ e s p ps hp h1]
    rcases removePatch_fail_names env e s p ha h1 with hm | hm
    · left
      rw [hE]
      exact bulkGo_mem_errors _ _ (removePatch_errors_suffix env) _ _ ps _ hm
    · right
      rw [hE]
      exact bulkGo_mem_errors _ _ (removePatch_errors_suffix env) _ _ ps _ hm
  -- enableAllUnlocks
  · intro e s xs h
    rw [enableAllUnlocks_eq_bulkGo]
    exact bulkGo_skip _ _ e s xs (fun x hx => by simp [h x hx])
  · intro e s xs
    rw [enableAllUnlocks_eq_bulkGo]
    exact bulkGo_true_iff (MemoryEditor.enableUnlock env) _ (fun x => x.enabled)
      (fun e s x h => by rw [(enableUnlock_parts env e s x).1 h])
      (fun e s x h => (enableUnlock_parts env e s x).2.1 h)
      (fun x hx => by simpa using hx) (fun x hx => by simpa using hx) e s xs
  · intro e s x xs hx h1
    rw [enableAllUnlocks_eq_bulkGo, enableAllUnlocks_eq_bulkGo]
    exact bulkGo_continue _ _ e s x xs (by simp [hx]) h1
  · intro e s x xs ha hx h1
    have hE : (MemoryEditor.enableAllUnlocks env e s (x :: xs)).2.1 =
        (bulkGo (MemoryEditor.enableUnlock env) (fun q => !q.enabled)
          (MemoryEditor.enableUnlock env e s x).2.1
          (MemoryEditor.enableUnlock env e s x).2.2.1 xs).2.1 := by
      rw [enableAllUnlocks_eq_bulkGo, bulkGo_continue _ _ e s x xs (by simp [hx]) h1]
    rw [hE]
    exact bulkGo_mem_errors _ _ (fun e s y => (enableUnlock_parts env e s y).2.2.1) _ _ xs _
      ((enableUnlock_parts env e s x).2.2.2 ha h1)
  -- disableAllUnlocks
  · intro e s xs h
    rw [disableAllUnlocks_eq_bulkGo]
    exact bulkGo_skip _ _ e s xs (fun x hx => h x hx)
  · intro e s xs
    rw [disableAllUnlocks_eq_bulkGo]
    have hiff := bulkGo_true_iff (MemoryEditor.disableUnlock env) (fun x => x.enabled)
      (fun x => !x.enabled)
      (fun e s x h => by rw [(disableUnlock_parts env e s x).1 h]; rfl)
      (fun e s x h => (disableUnlock_parts env e s x).2.1 h)
      (fun x hx => by simp [hx]) (fun x hx => by simp [hx]) e s xs
    rw [hiff]
    constructor
    · intro h y hy
      simpa using h y hy
    · intro h y hy
      simpa using h y hy
  · intro e s x xs hx h1
    rw [disableAllUnlocks_eq_bulkGo, disableAllUnlocks_eq_bulkGo]
    exact bulkGo_continue _ _ e s x xs hx h1
  · intro e s x xs ha hx h1
    have hE : (MemoryEditor.disableAllUnlocks env e s (x :: xs)).2.1 =
        (bulkGo (MemoryEditor.disableUnlock env) (fun q => q.enabled)
          (MemoryEditor.disableUnlock env e s x).2.1
          (MemoryEditor.disableUnlock env e s x).2.2.1 xs).2.1 := by
      rw [disableAllUnlocks_eq_bulkGo, bulkGo_continue _ _ e s x xs hx h1]
    rw [hE]
    exact bulkGo_mem_errors _ _ (fun e s y => (disableUnlock_parts env e s y).2.2.1) _ _ xs _
      ((disableUnlock_parts env e s x).2.2.2 ha h1)
  -- enableAllBundles
  · intro e s xs h
    rw [enableAllBundles_eq_bulkGo]
    exact bulkGo_skip _ _ e s xs (fun x hx => by simp [h x hx])
  · intro e s xs
    rw [enableAllBundles_eq_bulkGo]
    exact bulkGo_true_iff (MemoryEditor.enableBundle env) _ (fun x => x.enabled)
      (fun e s x h => by rw [(enableBundle_bundle env e s x).1 h])
      (fun e s x h => (enableBundle_bundle env e s x).2 h)
      (fun x hx => by simpa using hx) (fun x hx => by simpa using hx) e s xs
  · intro e s x xs hx h1
    rw [enableAllBundles_eq_bulkGo, enableAllBundles_eq_bulkGo]
    exact bulkGo_continue _ _ e s x xs (by simp [hx]) h1
  · intro e s x xs ha hx h1
    have hE : (MemoryEditor.enableAllBundles env e s (x :: xs)).2.1 =
        (bulkGo (MemoryEditor.enableBundle env) (fun q => !q.enabled)
          (MemoryEditor.enableBundle env e s x).2.1
          (MemoryEditor.enableBundle env e s x).2.2.1 xs).2.1 := by
      rw [enableAllBundles_eq_bulkGo, bulkGo_continue _ _ e s x xs (by simp [hx]) h1]
    rw [hE]
    exact bulkGo_mem_errors _ _ (fun e s y => (enableBundle_errors_parts env e s y).1) _ _ xs _
      ((enableBundle_errors_parts env e s x).2 ha h1)
  -- disableAllBundles
  · intro e s xs h
    rw [disableAllBundles_eq_bulkGo]
    exact bulkGo_skip _ _ e s xs (fun x hx => h x hx)
  · intro e s xs
    rw [disableAllBundles_eq_bulkGo]
    have hiff := bulkGo_true_iff (MemoryEditor.disableBundle env) (fun x => x.enabled)
      (fun x => !x.enabled)
      (fun e s x h => by rw [(disableBundle_bundle env e s x).1 h]; rfl)
      (fun e s x h => (disableBundle_bundle env e s x).2 h)
      (fun x hx => by simp [hx]) (fun x hx => by simp [hx]) e s xs
    rw [hiff]
    constructor
    · intro h y hy
      simpa using h y hy
    · intro h y hy
      simpa using h y hy
  · intro e s x xs hx h1
    rw [disableAllBundles_eq_bulkGo, disableAllBundles_eq_bulkGo]
    exact bulkGo_continue _ _ e s x xs hx h1
  · intro e s x xs ha hx h1
    have hE : (MemoryEditor.disableAllBundles env e s (x :: xs)).2.1 =
        (bulkGo (MemoryEditor.disableBundle env) (fun q => q.enabled)
          (MemoryEditor.disableBundle env e s x).2.1
          (MemoryEditor.disableBundle env e s x).2.2.1 xs).2.1 := by
      rw [disableAllBundles_eq_bulkGo, bulkGo_continue _ _ e s x xs hx h1]
    rw [hE]
    exact bulkGo_mem_errors _ _ (fun e s y => (disableBundle_errors_parts env e s y).1) _ _ xs _
      ((disableBundle_errors_parts env e s x).2 ha h1)

-- ===========================================================================
-- Concrete inputs for witnesses
-- ===========================================================================

/-- Like `sampleEnv` but the target process has exited. -/
def sampleEnvDead : Env := { sampleEnv with alive := false }

/-- Like `sampleEnv` but no process matches the requested name. -/
def sampleEnvNoProc : Env := { sampleEnv with pid := 0 }

/-- Like `sampleEnv` but the byte write at address 5001 fails. -/
def samplePartialEnv : Env := { sampleEnv with writeOk := fun a _ => a != 5001 }

/-- A two-address bundle. -/
def sampleBundle : Patches.UnlockBundle :=
  { name := "b", addresses := [5000, 5001], enabled := false }

/-- A non-selectable unlock item. -/
def sampleItemNS : Patches.UnlockItem :=
  { name := "ns", address := 5002, enabled := false, selectable := false }

/-- An already-enabled patch (for the skip behaviour). -/
def sampleEnabled : Patches.Patch :=
  { name := "r", pattern := [9, 8], offset := 0, original := [9], patched := [1],
    enabled := true }

-- ===========================================================================
-- Witnesses
-- ===========================================================================

theorem c1_round_trip_witness :
    samplePatch.original.length = samplePatch.patched.length ∧
    (MemoryEditor.applyPatch sampleEnv sampleEd sampleSt samplePatch).1 = true ∧
    (MemoryEditor.removePatch sampleEnv
      (MemoryEditor.applyPatch sampleEnv sampleEd sampleSt samplePatch).2.1
      (MemoryEditor.applyPatch sampleEnv sampleEd sampleSt samplePatch).2.2.1
      (MemoryEditor.applyPatch sampleEnv sampleEd sampleSt samplePatch).2.2.2).1 = true ∧
    (MemoryEditor.removePatch sampleEnv
      (MemoryEditor.applyPatch sampleEnv sampleEd sampleSt samplePatch).2.1
      (MemoryEditor.applyPatch sampleEnv sampleEd sampleSt samplePatch).2.2.1
      (MemoryEditor.applyPatch sampleEnv sampleEd sampleSt samplePatch).2.2.2).2.2.1.mem
      ((MemoryEditor.findPatternAddress sampleEnv sampleSt.mem sampleEd samplePatch).1 +
        samplePatch.offset + 0) = samplePatch.original.getD 0 0 :=
  ⟨rfl, by decide, by decide,
    (c1_round_trip sampleEnv sampleEd sampleSt samplePatch rfl (by decide) (by decide)).1
      0 (by decide)⟩

theorem c2_enabled_only_on_success_witness :
    (MemoryEditor.applyPatch sampleEnvDead sampleEd sampleSt samplePatch).1 = false ∧
    (MemoryEditor.applyPatch sampleEnvDead sampleEd sampleSt samplePatch).2.2.2 =
      samplePatch ∧
    (MemoryEditor.applyPatch sampleEnvDead sampleEd sampleSt samplePatch).2.1.errors.length =
      sampleEd.errors.length + 1 ∧
    (MemoryEditor.applyPatch sampleEnv sampleEd sampleSt samplePatch).2.2.2 =
      { samplePatch with enabled := true } ∧
    (MemoryEditor.applyPatch sampleEnv sampleEd sampleSt samplePatch).2.2.1.prot 4100 =
      sampleSt.prot 4100 :=
  ⟨by decide,
    ((c2_enabled_only_on_success sampleEnvDead sampleEd sampleSt samplePatch).1 (by decide)).1,
    ((c2_enabled_only_on_success sampleEnvDead sampleEd sampleSt samplePatch).1 (by decide)).2,
    ((c2_enabled_only_on_success sampleEnv sampleEd sampleSt samplePatch).2.2 (by decide)).1,
    ((c2_enabled_only_on_success sampleEnv sampleEd sampleSt samplePatch).2.2 (by decide)).2.2
      (fun _ _ => rfl) 4100⟩

theorem c3_protection_always_restored_witness :
    (MemoryEditor.writeProtectedMemory sampleEnv sampleSt 4100 [5]).2.prot 4100 =
      sampleSt.prot 4100 ∧
    (MemoryEditor.writeByte sampleEnv sampleEd sampleSt 4100 1).2.prot 4100 =
      sampleSt.prot 4100 :=
  ⟨(c3_protection_always_restored sampleEnv sampleEd sampleSt 4100 1 [5]
      (fun _ _ => rfl)).1 4100,
    (c3_protection_always_restored sampleEnv sampleEd sampleSt 4100 1 [5]
      (fun _ _ => rfl)).2 4100⟩

theorem c4_scanner_first_match_witness :
    PatternScanner.findPattern sampleEnv.readOk sampleMem 4096 8 [9, 8] = some 4099 :=
  ((c4_scanner_first_match sampleEnv.readOk sampleMem 4096 8 [9, 8] (by decide)
    (fun _ _ => rfl)).1 4099).mpr ⟨3, by decide, by decide, by decide, by decide⟩

theorem c5_bundle_non_atomic_witness :
    (MemoryEditor.enableBundle samplePartialEnv sampleEd sampleSt sampleBundle).1 = false ∧
    (MemoryEditor.enableBundle samplePartialEnv sampleEd sampleSt sampleBundle).2.2.2 =
      sampleBundle ∧
    (MemoryEditor.enableBundle samplePartialEnv sampleEd sampleSt
      sampleBundle).2.2.1.mem 5000 = 1 :=
  ⟨by decide,
    (c5_bundle_non_atomic samplePartialEnv sampleEd sampleSt sampleBundle).2.2.1 (by decide),
    (c5_bundle_non_atomic samplePartialEnv sampleEd sampleSt sampleBundle).2.2.2.1
      (by decide) 5000 (by decide) (by decide)⟩

theorem c6_nonselectable_rejected_witness :
    MainWindow.onIndividualUnlockToggled sampleEnv sampleEd sampleSt sampleItemNS true =
      (sampleEd, sampleSt, sampleItemNS) :=
  c6_nonselectable_rejected sampleEnv sampleEd sampleSt sampleItemNS true rfl

theorem c7_bulk_apply_continues_witness :
    (MemoryEditor.applyAllPatches sampleEnv sampleEd sampleSt
      [sampleMissing, samplePatch]).1 = false ∧
    (MemoryEditor.applyAllPatches sampleEnv sampleEd sampleSt
      [sampleMissing, samplePatch]).2.2.2 =
      [(MemoryEditor.applyPatch sampleEnv sampleEd sampleSt sampleMissing).2.2.2,
        (MemoryEditor.applyPatch sampleEnv
          (MemoryEditor.applyPatch sampleEnv sampleEd sampleSt sampleMissing).2.1
          (MemoryEditor.applyPatch sampleEnv sampleEd sampleSt sampleMissing).2.2.1
          samplePatch).2.2.2] :=
  c7_bulk_apply_continues sampleEnv sampleEd sampleSt sampleMissing samplePatch rfl rfl
    (by decide)

theorem c8_bulk_best_effort_witness :
    MemoryEditor.applyAllPatches sampleEnv sampleEd sampleSt [sampleEnabled] =
      (true, sampleEd, sampleSt, [sampleEnabled]) ∧
    (("Pattern not found: " ++ sampleMissing.name) ∈
        (MemoryEditor.applyAllPatches sampleEnv sampleEd sampleSt
          [sampleMissing]).2.1.errors ∨
      ("Failed to write patch: " ++ sampleMissing.name) ∈
        (MemoryEditor.applyAllPatches sampleEnv sampleEd sampleSt
          [sampleMissing]).2.1.errors) :=
  ⟨(c8_bulk_best_effort sampleEnv).1.1 sampleEd sampleSt [sampleEnabled] (by decide),
    (c8_bulk_best_effort sampleEnv).1.2.2.2 sampleEd sampleSt sampleMissing [] (by decide)
      rfl (by decide)⟩

theorem c9_cache_behavior_witness :
    MemoryEditor.findPatternAddress sampleEnv sampleMem
      (MemoryEditor.findPatternAddress sampleEnv sampleMem sampleEd samplePatch).2
      samplePatch =
      ((MemoryEditor.findPatternAddress sampleEnv sampleMem sampleEd samplePatch).1,
        (MemoryEditor.findPatternAddress sampleEnv sampleMem sampleEd samplePatch).2) ∧
    (MemoryEditor.findPatternAddress sampleEnv sampleMem sampleEd samplePatch).2.scanCount =
      sampleEd.scanCount + 1 ∧
    (MemoryEditor.detach sampleEd).patternCache "p" = none :=
  ⟨(c9_cache_behavior sampleEnv sampleMem sampleMem sampleEd samplePatch "ffxv_s.exe").1
      (by decide),
    (c9_cache_behavior sampleEnv sampleMem sampleMem sampleEd samplePatch "ffxv_s.exe").2.1
      rfl,
    (c9_cache_behavior sampleEnv sampleMem sampleMem sampleEd samplePatch "ffxv_s.exe").2.2.1
      rfl "p"⟩

theorem c10_failed_reattach_not_atomic_witness :
    (MemoryEditor.attachToProcess sampleEnvNoProc sampleEd "ffxv_s.exe").2.processHandle =
      false ∧
    (MemoryEditor.attachToProcess sampleEnvNoProc sampleEd "ffxv_s.exe").2.processId = 0 ∧
    (MemoryEditor.attachToProcess sampleEnvNoProc sampleEd "ffxv_s.exe").2.patternCache "p" =
      none :=
  ⟨(c10_failed_reattach_not_atomic sampleEnvNoProc sampleEd "ffxv_s.exe" rfl (by decide)).1,
    (c10_failed_reattach_not_atomic sampleEnvNoProc sampleEd "ffxv_s.exe" rfl (by decide)).2.1,
    (c10_failed_reattach_not_atomic sampleEnvNoProc sampleEd "ffxv_s.exe" rfl
      (by decide)).2.2 "p"⟩
